import Mathlib

/-!
Verification development for the RBAC dual-write replication engine
(insights-rbac).  The permission-model → relation-graph translation layer
is embedded shallowly: relation tuples are a 7-field record, the tuple
store is a `Finset` of tuples, and the dual-write handler is a pure
function from the role's old and new per-workspace permission-set mapping
to the new mapping plus the tuple diff it replicates.  The seeding job
(`management/seeds.py`) and the access view (`management/access/view.py`)
are embedded as pure functions over explicit inputs.
-/

/-- A relation tuple: the atomic fact of the relationship graph, with the
7-field wire shape `(resource_type_namespace, resource_type_name,
resource_id, relation, subject_type_namespace, subject_type_name,
subject_id)` (spec section 6, and the field names used by the reference
tests' predicates). -/
structure RelationTuple where
  resource_type_namespace : String
  resource_type_name : String
  resource_id : String
  relation : String
  subject_type_namespace : String
  subject_type_name : String
  subject_id : String
deriving DecidableEq, Repr

namespace InMemoryTuples

/-- Modelled from the spec: `InMemoryTuples.write`
(`migration_tool/in_memory_tuples.py` is absent from the sources); writing
tuples has set-union semantics, so writing an already-present tuple is a
no-op, not an error. -/
def write (store : Finset RelationTuple) (tuples : Finset RelationTuple) :
    Finset RelationTuple :=
  store ∪ tuples

/-- Modelled from the spec: `InMemoryTuples.remove`
(`migration_tool/in_memory_tuples.py` is absent from the sources); deleting
tuples has set-difference semantics, so deleting an absent tuple is a
no-op, not an error. -/
def remove (store : Finset RelationTuple) (tuples : Finset RelationTuple) :
    Finset RelationTuple :=
  store \ tuples

end InMemoryTuples

/-- Modelled from the spec: the in-memory Replicator
(`InMemoryRelationReplicator`, absent from the sources) applies a
replication event's tuple writes and deletes directly and synchronously to
the tuple store. -/
def applyDiff (store writes deletes : Finset RelationTuple) :
    Finset RelationTuple :=
  InMemoryTuples.remove (InMemoryTuples.write store writes) deletes

lemma applyDiff_exact (a b : Finset RelationTuple) :
    applyDiff a (b \ a) (a \ b) = b := by
  ext t
  simp only [applyDiff, InMemoryTuples.write, InMemoryTuples.remove,
    Finset.mem_sdiff, Finset.mem_union]
  tauto

lemma applyDiff_from_empty (a b : Finset RelationTuple) :
    applyDiff a (b \ (∅ : Finset RelationTuple)) ((∅ : Finset RelationTuple) \ b) = a ∪ b := by
  simp [applyDiff, InMemoryTuples.write, InMemoryTuples.remove]

/-- Claim C7: applying the same (writes, deletes) diff twice yields the
same tuple store state as applying it once; writing an already-present
set of tuples and deleting an absent set of tuples are no-ops. -/
theorem c7_diff_application_idempotent
    (store writes deletes present absent : Finset RelationTuple)
    (hpresent : present ⊆ store)
    (habsent : ∀ t ∈ absent, t ∉ store) :
    applyDiff (applyDiff store writes deletes) writes deletes =
        applyDiff store writes deletes ∧
      InMemoryTuples.write store present = store ∧
      InMemoryTuples.remove store absent = store := by
  refine ⟨?_, ?_, ?_⟩
  · ext t
    simp only [applyDiff, InMemoryTuples.write, InMemoryTuples.remove,
      Finset.mem_sdiff, Finset.mem_union]
    tauto
  · exact Finset.union_eq_left.mpr hpresent
  · ext t
    simp only [InMemoryTuples.remove, Finset.mem_sdiff, and_iff_left_iff_imp]
    exact fun ht habs => habsent t habs ht

/-- Witness for C7 at a concrete store and diff. -/
theorem c7_diff_application_idempotent_witness :
    applyDiff (applyDiff {RelationTuple.mk "rbac" "role" "r" "app_hosts_read" "rbac" "principal" "*"}
        {RelationTuple.mk "rbac" "workspace" "w" "user_grant" "rbac" "role_binding" "b"} ∅)
      {RelationTuple.mk "rbac" "workspace" "w" "user_grant" "rbac" "role_binding" "b"} ∅ =
      applyDiff {RelationTuple.mk "rbac" "role" "r" "app_hosts_read" "rbac" "principal" "*"}
        {RelationTuple.mk "rbac" "workspace" "w" "user_grant" "rbac" "role_binding" "b"} ∅ ∧
    InMemoryTuples.write {RelationTuple.mk "rbac" "role" "r" "app_hosts_read" "rbac" "principal" "*"}
      {RelationTuple.mk "rbac" "role" "r" "app_hosts_read" "rbac" "principal" "*"} =
      {RelationTuple.mk "rbac" "role" "r" "app_hosts_read" "rbac" "principal" "*"} ∧
    InMemoryTuples.remove {RelationTuple.mk "rbac" "role" "r" "app_hosts_read" "rbac" "principal" "*"}
      {RelationTuple.mk "rbac" "workspace" "w" "user_grant" "rbac" "role_binding" "b"} =
      {RelationTuple.mk "rbac" "role" "r" "app_hosts_read" "rbac" "principal" "*"} :=
  c7_diff_application_idempotent _ _ _ _ _ (by decide) (by decide)

/-! ## Seeding (`rbac/management/seeds.py`) -/

/-- A tenant as seen by `do_seeding`: only its `schema_name` matters to the
scheduling loop. -/
structure SeedTenant where
  schema_name : String
deriving DecidableEq, Repr

/-- The tenant loop inside `do_seeding`'s `try` block: for each tenant, if
`tenant.schema_name != "public"`, the seed function is submitted to the
executor.  Submitting may raise (modelled by `Except`); the first raised
exception aborts the loop.  Returns the tenants submitted so far paired
with the outcome of the loop body. -/
def do_seeding_schedule (submit : SeedTenant → Except String Unit) :
    List SeedTenant → List SeedTenant × Except String Unit
  | [] => ([], Except.ok ())
  | t :: rest =>
      if t.schema_name = "public" then do_seeding_schedule submit rest
      else
        match submit t with
        | Except.ok _ =>
            let r := do_seeding_schedule submit rest
            (t :: r.1, r.2)
        | Except.error e => ([t], Except.error e)

/-- `do_seeding` (`rbac/management/seeds.py`): runs the scheduling loop in
a `try` block; `except Exception` logs the error and falls through, so the
function itself returns normally.  The `Except` return type records
whether an exception escapes `do_seeding` to its caller; the value carries
the submitted tenants and the logged error message, if one was caught. -/
def do_seeding (submit : SeedTenant → Except String Unit) (target : String)
    (tenants : List SeedTenant) : Except String (List SeedTenant × Option String) :=
  match do_seeding_schedule submit tenants with
  | (l, Except.ok _) => Except.ok (l, none)
  | (l, Except.error exc) =>
      Except.ok (l, some ("Error encountered during " ++ target ++ " seeding " ++ exc ++ "."))

/-- Claim C8: `do_seeding` never submits the seed function for a tenant
whose `schema_name` is `"public"`; seeding is applied only to tenants with
a different `schema_name`. -/
theorem c8_public_tenant_never_seeded
    (submit : SeedTenant → Except String Unit) (target : String)
    (tenants : List SeedTenant) (t : SeedTenant) (submitted : List SeedTenant)
    (log : Option String)
    (hrun : do_seeding submit target tenants = Except.ok (submitted, log))
    (ht : t ∈ submitted) :
    t.schema_name ≠ "public" := by
  have key : ∀ l, t ∈ (do_seeding_schedule submit l).1 → t.schema_name ≠ "public" := by
    intro l
    induction l with
    | nil => simp [do_seeding_schedule]
    | cons hd tl ih =>
        by_cases hhd : hd.schema_name = "public"
        · simpa [do_seeding_schedule, hhd] using ih
        · simp only [do_seeding_schedule, hhd, if_false]
          rcases hsub : submit hd with e | v
          · simp only [hsub, List.mem_singleton]
            rintro rfl
            exact hhd
          · simp only [hsub]
            intro hmem
            rcases List.mem_cons.mp hmem with rfl | hmem
            · exact hhd
            · exact ih hmem
  have hsubmitted : submitted = (do_seeding_schedule submit tenants).1 := by
    unfold do_seeding at hrun
    rcases h : do_seeding_schedule submit tenants with ⟨l, r⟩
    cases r with
    | ok v => rw [h] at hrun; simpa using (congrArg (fun p => p.1) (Except.ok.inj hrun)).symm
    | error e => rw [h] at hrun; simpa using (congrArg (fun p => p.1) (Except.ok.inj hrun)).symm
  exact key tenants (hsubmitted ▸ ht)

/-- Witness for C8: a concrete run with a public and a non-public tenant. -/
theorem c8_public_tenant_never_seeded_witness :
    (SeedTenant.mk "acct1").schema_name ≠ "public" :=
  c8_public_tenant_never_seeded (fun _ => Except.ok ()) "role"
    [SeedTenant.mk "public", SeedTenant.mk "acct1"] (SeedTenant.mk "acct1")
    [SeedTenant.mk "acct1"] none (by rfl) (by decide)

/-- Claim C9: `do_seeding` never propagates an exception to its caller:
whatever the seed function and tenant set, any exception raised while
scheduling is caught and logged and `do_seeding` returns normally. -/
theorem c9_do_seeding_never_throws
    (submit : SeedTenant → Except String Unit) (target : String)
    (tenants : List SeedTenant) :
    ∃ v, do_seeding submit target tenants = Except.ok v := by
  unfold do_seeding
  rcases do_seeding_schedule submit tenants with ⟨l, r⟩
  cases r with
  | ok v => exact ⟨(l, none), rfl⟩
  | error e => exact ⟨_, rfl⟩

/-! ## Access view (`rbac/management/access/view.py`) -/

/-- `request.query_params.get(key)`: first binding for `key`, if any. -/
def lookupParam (params : List (String × String)) (key : String) : Option String :=
  (params.find? (fun p => p.1 == key)).map Prod.snd

/-- Modelled from the spec: `validate_and_get_key` (`management/utils.py`
is absent from the sources); returns the query parameter's value when it
is one of the valid values, the default when the parameter is absent, and
raises a validation error otherwise. -/
def validate_and_get_key (params : List (String × String)) (key : String)
    (valid_values : List String) (default_value : String) : Except String String :=
  match lookupParam params key with
  | none => Except.ok default_value
  | some v =>
      if v ∈ valid_values then Except.ok v
      else Except.error (key ++ " query parameter value " ++ v ++ " is invalid")

/-- A row of the `Permission` table with the fields used by
`obtain_paginated_account_permissions`'s filters (`app`, `resource`,
`operation`) and the `permission` string it selects. -/
structure PermissionRow where
  app : String
  resource : String
  operation : String
  permission : String
deriving DecidableEq, Repr

/-- One `__in` filter of `obtain_paginated_account_permissions`: applied
only when the query parameter is present and non-empty (Python's
`if context:` truthiness), in which case the field must be one of the
comma-separated values. -/
def matchesFilter (ctx : Option String) (field : String) : Bool :=
  match ctx with
  | none => true
  | some c => if c = "" then true else (c.splitOn ",").contains field

/-- `AccessView.obtain_paginated_account_permissions`: builds the filters
from the `application`, `resource_type` and `verb` query parameters and
returns the `permission` strings of the matching `Permission` rows. -/
def obtain_paginated_account_permissions (params : List (String × String))
    (permTable : List PermissionRow) : List String :=
  (permTable.filter (fun p =>
      matchesFilter (lookupParam params "application") p.app &&
      matchesFilter (lookupParam params "resource_type") p.resource &&
      matchesFilter (lookupParam params "verb") p.operation)).map PermissionRow.permission

/-- The response value of `AccessView.get`: either the account-scope
permission listing or the per-principal access policy. -/
inductive AccessResponse where
  | accountPerms (perms : List String)
  | principalAccess (policy : List String)
deriving DecidableEq, Repr

/-- The observable outcome of one `AccessView.get` call: the response,
whether the per-principal access cache was consulted (`cache.get_policy`),
and the policy written back to it (`cache.save_policy`), if any. -/
structure AccessGetOutcome where
  response : AccessResponse
  cacheConsulted : Bool
  cacheSaved : Option (List String)
deriving DecidableEq, Repr

/-- The principal-scope path of `AccessView.get`: consult the cache; on a
miss, serialize the access queryset and save it to the cache. -/
def principalPathOutcome (cachedPolicy : Option (List String))
    (queryset : List String) : AccessGetOutcome :=
  match cachedPolicy with
  | some policy => ⟨AccessResponse.principalAccess policy, true, none⟩
  | none => ⟨AccessResponse.principalAccess queryset, true, some queryset⟩

/-- `AccessView.get`: validates the `scope` query parameter against
`["account", "principal"]` with default `"principal"`; on `"account"` it
returns the filtered account permissions without touching the
per-principal cache, otherwise it serves the principal path. -/
def AccessView_get (params : List (String × String))
    (cachedPolicy : Option (List String)) (queryset : List String)
    (permTable : List PermissionRow) : Except String AccessGetOutcome :=
  match validate_and_get_key params "scope" ["account", "principal"] "principal" with
  | Except.error e => Except.error e
  | Except.ok scope =>
      if scope = "account" then
        Except.ok ⟨AccessResponse.accountPerms
          (obtain_paginated_account_permissions params permTable), false, none⟩
      else Except.ok (principalPathOutcome cachedPolicy queryset)

/-- Claim C10: `AccessView.get` validates `scope` against exactly
`"account"` and `"principal"`, defaulting to `"principal"` when absent;
any other value is rejected, and when `scope` is `"account"` the response
is built from the filtered permission strings with the per-principal
access cache neither consulted nor written. -/
theorem c10_access_view_scope_validation
    (params : List (String × String)) (cachedPolicy : Option (List String))
    (queryset : List String) (permTable : List PermissionRow) :
    (lookupParam params "scope" = none →
      AccessView_get params cachedPolicy queryset permTable =
        Except.ok (principalPathOutcome cachedPolicy queryset)) ∧
    (∀ v, lookupParam params "scope" = some v → v ≠ "account" → v ≠ "principal" →
      ∃ e, AccessView_get params cachedPolicy queryset permTable = Except.error e) ∧
    (lookupParam params "scope" = some "principal" →
      AccessView_get params cachedPolicy queryset permTable =
        Except.ok (principalPathOutcome cachedPolicy queryset)) ∧
    (lookupParam params "scope" = some "account" →
      AccessView_get params cachedPolicy queryset permTable =
        Except.ok ⟨AccessResponse.accountPerms
          (obtain_paginated_account_permissions params permTable), false, none⟩) := by
  refine ⟨?_, ?_, ?_, ?_⟩
  · intro h
    simp [AccessView_get, validate_and_get_key, h]
  · intro v hv hva hvp
    refine ⟨"scope query parameter value " ++ v ++ " is invalid", ?_⟩
    simp [AccessView_get, validate_and_get_key, hv, hva, hvp]
  · intro h
    simp [AccessView_get, validate_and_get_key, h]
  · intro h
    simp [AccessView_get, validate_and_get_key, h]

/-- Witness for C10: a request with `scope=account` takes the filtered
account-permission path without cache interaction. -/
theorem c10_access_view_scope_validation_witness :
    AccessView_get [("scope", "account")] (some ["cached"]) ["qs"]
        [PermissionRow.mk "app1" "hosts" "read" "app1:hosts:read"] =
      Except.ok ⟨AccessResponse.accountPerms
        (obtain_paginated_account_permissions [("scope", "account")]
          [PermissionRow.mk "app1" "hosts" "read" "app1:hosts:read"]), false, none⟩ :=
  (c10_access_view_scope_validation [("scope", "account")] (some ["cached"]) ["qs"]
    [PermissionRow.mk "app1" "hosts" "read" "app1:hosts:read"]).2.2.2 (by decide)

/-! ## Dual-write handler (`management/role/relation_api_dual_write_handler.py`) -/

/-- A V2 Role's tuples encode `relation = permission.replace(':', '_')`
(spec section 3); `':'` is a single character, so the replacement is a
character map. -/
def permToRelation (p : String) : String :=
  ⟨p.data.map (fun c => if c = ':' then '_' else c)⟩

/-- A graph-assigned V2 Role identifier, distinct from any permission-model
role ID: the `n`-th identifier handed out by the handler's supply. -/
def freshRoleId (n : Nat) : String :=
  ⟨'r' :: List.replicate n 'x'⟩

/-- A graph-assigned Role Binding identifier: the `n`-th identifier handed
out by the handler's supply. -/
def freshBindingId (n : Nat) : String :=
  ⟨'b' :: List.replicate n 'x'⟩

lemma freshRoleId_injective : Function.Injective freshRoleId := by
  intro a b h
  have hdata : ('r' :: List.replicate a 'x') = ('r' :: List.replicate b 'x') :=
    congrArg String.data h
  simpa using congrArg List.length (List.cons.inj hdata).2

lemma freshBindingId_injective : Function.Injective freshBindingId := by
  intro a b h
  have hdata : ('b' :: List.replicate a 'x') = ('b' :: List.replicate b 'x') :=
    congrArg String.data h
  simpa using congrArg List.length (List.cons.inj hdata).2

/-- Modelled from the spec: one workspace's slot in the handler's
role-mapping state (`relation_api_dual_write_handler.py` is absent from
the sources): the workspace's effective permission set, the Role Binding
backing it, the V2 Role the binding grants, and the Groups bound as
`subject` on the binding. -/
structure BindingEntry where
  perms : Finset String
  bindingId : String
  v2RoleId : String
  groups : Finset String
deriving DecidableEq

/-- Modelled from the spec: the workspace → binding mapping the handler
keeps for one permission-model role (the state `prepare_for_update`
snapshots before an update is applied). -/
abbrev RoleMapping := List (String × BindingEntry)

/-- One permission tuple of a V2 Role (resource type `role`, relation the
encoded permission). -/
def roleTuple (rid : String) (perm : String) : RelationTuple :=
  ⟨"rbac", "role", rid, permToRelation perm, "rbac", "principal", "*"⟩

/-- The `granted` tuple of a Role Binding, pointing at the V2 Role it
grants. -/
def grantedTuple (bid rid : String) : RelationTuple :=
  ⟨"rbac", "role_binding", bid, "granted", "rbac", "role", rid⟩

/-- The `user_grant` tuple from a Workspace to a Role Binding that applies
to it. -/
def userGrantTuple (ws bid : String) : RelationTuple :=
  ⟨"rbac", "workspace", ws, "user_grant", "rbac", "role_binding", bid⟩

/-- The `subject` tuple of a Role Binding, pointing at a bound Group. -/
def subjectTuple (bid gid : String) : RelationTuple :=
  ⟨"rbac", "role_binding", bid, "subject", "rbac", "group", gid⟩

/-- All tuples backing one workspace's binding entry: the granted V2
Role's permission tuples, the binding's `granted` and `user_grant` tuples,
and one `subject` tuple per bound group. -/
def entryTuples (ws : String) (e : BindingEntry) : Finset RelationTuple :=
  e.perms.image (roleTuple e.v2RoleId) ∪
    ({grantedTuple e.bindingId e.v2RoleId, userGrantTuple ws e.bindingId} :
      Finset RelationTuple) ∪
    e.groups.image (subjectTuple e.bindingId)

/-- All tuples a role mapping materializes in the relationship graph. -/
def mappingTuples : RoleMapping → Finset RelationTuple
  | [] => ∅
  | p :: rest => entryTuples p.1 p.2 ∪ mappingTuples rest

/-- Look up the binding entry of a workspace in a role mapping. -/
def findEntry (ws : String) : RoleMapping → Option BindingEntry
  | [] => none
  | p :: rest => if p.1 = ws then some p.2 else findEntry ws rest

/-- Modelled from the spec: exact-match V2 Role resolution — look up a V2
Role whose tuple set exactly equals the permission set (tuple-set
equality, not name) among the given mapping's entries. -/
def lookupV2 (perms : Finset String) : RoleMapping → Option String
  | [] => none
  | p :: rest => if p.2.perms = perms then some p.2.v2RoleId else lookupV2 perms rest

/-- Modelled from the spec: resolve-or-create the V2 Role for a permission
set — an exact-match lookup first among the entries already produced for
this role's new state, then among the role's pre-update entries, creating
a fresh V2 Role identifier only when neither matches. -/
def resolveV2Role (perms : Finset String) (done old : RoleMapping) (n : Nat) :
    String × Nat :=
  match lookupV2 perms done with
  | some rid => (rid, n)
  | none =>
      match lookupV2 perms old with
      | some rid => (rid, n)
      | none => (freshRoleId n, n + 1)

/-- Modelled from the spec: the handler's treatment of one workspace of
the role's new state.  An untouched workspace (same permission set before
and after) keeps its entry with no tuple mutation at all; a changed
workspace gets a fresh Role Binding granting the resolved V2 Role with the
previous binding's groups carried forward; a new workspace gets a fresh
Role Binding carrying the groups currently bound to the role via policy. -/
def processScope (old : RoleMapping) (roleGroups : Finset String)
    (acc : RoleMapping × Nat) (scope : String × Finset String) : RoleMapping × Nat :=
  match findEntry scope.1 old with
  | some e =>
      if e.perms = scope.2 then (acc.1 ++ [(scope.1, e)], acc.2)
      else
        let r := resolveV2Role scope.2 acc.1 old acc.2
        (acc.1 ++ [(scope.1, ⟨scope.2, freshBindingId r.2, r.1, e.groups⟩)], r.2 + 1)
  | none =>
      let r := resolveV2Role scope.2 acc.1 old acc.2
      (acc.1 ++ [(scope.1, ⟨scope.2, freshBindingId r.2, r.1, roleGroups⟩)], r.2 + 1)

/-- Modelled from the spec: compute the role's new mapping from its old
mapping, the groups currently bound to the role via policy, and the new
state's workspace → permission-set scopes.  Workspaces absent from the
new scopes simply drop out (their bindings are deleted by the diff, with
no replacement), and V2 Roles no remaining entry references are orphaned
(their tuples are deleted by the diff). -/
def replicateRole (old : RoleMapping) (roleGroups : Finset String)
    (scopes : List (String × Finset String)) (n : Nat) : RoleMapping × Nat :=
  scopes.foldl (processScope old roleGroups) ([], n)

/-- The minimal tuple diff between the graph slices of the old and new
mappings: writes are the new tuples not already present, deletes the old
tuples no longer wanted. -/
def roleDiff (old new : RoleMapping) : Finset RelationTuple × Finset RelationTuple :=
  (mappingTuples new \ mappingTuples old, mappingTuples old \ mappingTuples new)

/-- Modelled from the spec: `replicate_new_or_updated_role` — compute the
role's new mapping, diff its graph slice against the old mapping's, and
issue the diff through the Replicator against the store.  Returns the new
store, the new mapping, and the advanced identifier supply. -/
def replicate_new_or_updated_role (store : Finset RelationTuple)
    (old : RoleMapping) (roleGroups : Finset String)
    (scopes : List (String × Finset String)) (n : Nat) :
    Finset RelationTuple × RoleMapping × Nat :=
  let m := replicateRole old roleGroups scopes n
  let d := roleDiff old m.1
  (applyDiff store d.1 d.2, m.1, m.2)

/-! ## Graph-state observations (the reference tests' queries) -/

/-- The V2 Role resource identifiers present in the store: resource ids of
tuples with resource type `(rbac, role)` (the grouping used by
`expect_v2_roles_with_permissions`). -/
def storeV2RoleIds (s : Finset RelationTuple) : Finset String :=
  (s.filter fun t =>
      t.resource_type_namespace = "rbac" ∧ t.resource_type_name = "role").image
    RelationTuple.resource_id

/-- The tuples of one V2 Role resource. -/
def roleTuples (s : Finset RelationTuple) (rid : String) : Finset RelationTuple :=
  s.filter fun t =>
    t.resource_type_namespace = "rbac" ∧ t.resource_type_name = "role" ∧
      t.resource_id = rid

/-- The Role Binding resource identifiers present in the store. -/
def storeBindingIds (s : Finset RelationTuple) : Finset String :=
  (s.filter fun t =>
      t.resource_type_namespace = "rbac" ∧ t.resource_type_name = "role_binding").image
    RelationTuple.resource_id

/-- The Role Bindings a workspace grants, read off its `user_grant`
tuples (the query of `expect_1_role_binding_to_workspace`). -/
def wsBindings (s : Finset RelationTuple) (ws : String) : Finset String :=
  (s.filter fun t =>
      t.resource_type_namespace = "rbac" ∧ t.resource_type_name = "workspace" ∧
        t.resource_id = ws ∧ t.relation = "user_grant").image
    RelationTuple.subject_id

/-- The V2 Roles a Role Binding grants, read off its `granted` tuples. -/
def grantedOf (s : Finset RelationTuple) (bid : String) : Finset String :=
  (s.filter fun t =>
      t.resource_type_namespace = "rbac" ∧ t.resource_type_name = "role_binding" ∧
        t.resource_id = bid ∧ t.relation = "granted").image
    RelationTuple.subject_id

/-- The Groups bound on a Role Binding, read off its `subject` tuples. -/
def groupsOf (s : Finset RelationTuple) (bid : String) : Finset String :=
  (s.filter fun t =>
      t.resource_type_namespace = "rbac" ∧ t.resource_type_name = "role_binding" ∧
        t.resource_id = bid ∧ t.relation = "subject").image
    RelationTuple.subject_id

lemma storeV2RoleIds_union (s t : Finset RelationTuple) :
    storeV2RoleIds (s ∪ t) = storeV2RoleIds s ∪ storeV2RoleIds t := by
  simp [storeV2RoleIds, Finset.filter_union, Finset.image_union]

lemma roleTuples_union (s t : Finset RelationTuple) (rid : String) :
    roleTuples (s ∪ t) rid = roleTuples s rid ∪ roleTuples t rid := by
  simp [roleTuples, Finset.filter_union]

lemma storeBindingIds_union (s t : Finset RelationTuple) :
    storeBindingIds (s ∪ t) = storeBindingIds s ∪ storeBindingIds t := by
  simp [storeBindingIds, Finset.filter_union, Finset.image_union]

lemma wsBindings_union (s t : Finset RelationTuple) (ws : String) :
    wsBindings (s ∪ t) ws = wsBindings s ws ∪ wsBindings t ws := by
  simp [wsBindings, Finset.filter_union, Finset.image_union]

lemma grantedOf_union (s t : Finset RelationTuple) (bid : String) :
    grantedOf (s ∪ t) bid = grantedOf s bid ∪ grantedOf t bid := by
  simp [grantedOf, Finset.filter_union, Finset.image_union]

lemma groupsOf_union (s t : Finset RelationTuple) (bid : String) :
    groupsOf (s ∪ t) bid = groupsOf s bid ∪ groupsOf t bid := by
  simp [groupsOf, Finset.filter_union, Finset.image_union]

lemma storeV2RoleIds_empty : storeV2RoleIds ∅ = ∅ := rfl

lemma roleTuples_empty (rid : String) : roleTuples ∅ rid = ∅ := rfl

lemma storeBindingIds_empty : storeBindingIds ∅ = ∅ := rfl

lemma wsBindings_empty (ws : String) : wsBindings ∅ ws = ∅ := rfl

lemma grantedOf_empty (bid : String) : grantedOf ∅ bid = ∅ := rfl

lemma groupsOf_empty (bid : String) : groupsOf ∅ bid = ∅ := rfl

lemma storeV2RoleIds_entryTuples (ws : String) (e : BindingEntry)
    (h : e.perms.Nonempty) :
    storeV2RoleIds (entryTuples ws e) = {e.v2RoleId} := by
  ext x
  simp [storeV2RoleIds, entryTuples, roleTuple, grantedTuple, userGrantTuple,
    subjectTuple, Finset.mem_image, Finset.mem_filter, Finset.mem_union,
    Finset.mem_insert, Finset.mem_singleton, h, eq_comm]
  constructor
  · rintro ⟨a, ⟨hcase, hns, hname⟩, rfl⟩
    rcases hcase with rfl | ⟨q, hq, rfl⟩ | rfl | ⟨g, hg, rfl⟩ <;> simp_all
  · rintro rfl
    obtain ⟨q, hq⟩ := h
    exact ⟨roleTuple e.v2RoleId q, ⟨Or.inr (Or.inl ⟨q, hq, rfl⟩), rfl, rfl⟩, rfl⟩

lemma roleTuples_entryTuples_self (ws : String) (e : BindingEntry) :
    roleTuples (entryTuples ws e) e.v2RoleId = e.perms.image (roleTuple e.v2RoleId) := by
  ext t
  simp [roleTuples, entryTuples, roleTuple, grantedTuple, userGrantTuple, subjectTuple]
  aesop

lemma roleTuples_entryTuples_ne (ws : String) (e : BindingEntry) (rid : String)
    (h : e.v2RoleId ≠ rid) :
    roleTuples (entryTuples ws e) rid = ∅ := by
  ext t
  simp [roleTuples, entryTuples, roleTuple, grantedTuple, userGrantTuple, subjectTuple]
  aesop

lemma storeBindingIds_entryTuples (ws : String) (e : BindingEntry) :
    storeBindingIds (entryTuples ws e) = {e.bindingId} := by
  ext x
  simp [storeBindingIds, entryTuples, roleTuple, grantedTuple, userGrantTuple, subjectTuple]
  aesop

lemma wsBindings_entryTuples_self (ws : String) (e : BindingEntry) :
    wsBindings (entryTuples ws e) ws = {e.bindingId} := by
  ext x
  simp [wsBindings, entryTuples, roleTuple, grantedTuple, userGrantTuple, subjectTuple]
  constructor
  · rintro ⟨a, ⟨hcase, h1, h2, h3, h4⟩, rfl⟩
    rcases hcase with rfl | ⟨q, hq, rfl⟩ | rfl | ⟨g, hg, rfl⟩ <;> simp_all
  · rintro rfl
    exact ⟨userGrantTuple ws e.bindingId, ⟨by simp [userGrantTuple], rfl, rfl, rfl, rfl⟩, rfl⟩

lemma wsBindings_entryTuples_ne (ws : String) (e : BindingEntry) (ws' : String)
    (h : ws ≠ ws') :
    wsBindings (entryTuples ws e) ws' = ∅ := by
  ext x
  simp [wsBindings, entryTuples, roleTuple, grantedTuple, userGrantTuple, subjectTuple]
  aesop

lemma grantedOf_entryTuples_self (ws : String) (e : BindingEntry) :
    grantedOf (entryTuples ws e) e.bindingId = {e.v2RoleId} := by
  ext x
  simp [grantedOf, entryTuples, roleTuple, grantedTuple, userGrantTuple, subjectTuple]
  aesop

lemma grantedOf_entryTuples_ne (ws : String) (e : BindingEntry) (bid : String)
    (h : e.bindingId ≠ bid) :
    grantedOf (entryTuples ws e) bid = ∅ := by
  ext x
  simp [grantedOf, entryTuples, roleTuple, grantedTuple, userGrantTuple, subjectTuple]
  aesop

lemma groupsOf_entryTuples_self (ws : String) (e : BindingEntry) :
    groupsOf (entryTuples ws e) e.bindingId = e.groups := by
  ext x
  simp [groupsOf, entryTuples, roleTuple, grantedTuple, userGrantTuple, subjectTuple]
  constructor
  · rintro ⟨a, ⟨hcase, h1, h2, h3, h4⟩, rfl⟩
    rcases hcase with rfl | ⟨q, hq, rfl⟩ | rfl | ⟨g, hg, rfl⟩ <;> simp_all
  · intro hx
    exact ⟨subjectTuple e.bindingId x, ⟨by simp [subjectTuple, hx], rfl, rfl, rfl, rfl⟩, rfl⟩

lemma groupsOf_entryTuples_ne (ws : String) (e : BindingEntry) (bid : String)
    (h : e.bindingId ≠ bid) :
    groupsOf (entryTuples ws e) bid = ∅ := by
  ext x
  simp [groupsOf, entryTuples, roleTuple, grantedTuple, userGrantTuple, subjectTuple]
  aesop

lemma entryTuples_subset_mappingTuples {ws : String} {e : BindingEntry}
    {m : RoleMapping} (hmem : (ws, e) ∈ m) :
    entryTuples ws e ⊆ mappingTuples m := by
  induction m with
  | nil => cases hmem
  | cons hd tl ih =>
      rcases List.mem_cons.mp hmem with heq | hmem'
      · rw [← heq]
        exact Finset.subset_union_left
      · exact (ih hmem').trans Finset.subset_union_right

lemma replicateRole_create_two (w1 w2 : String) (P G : Finset String) (n : Nat) :
    replicateRole [] G [(w1, P), (w2, P)] n =
      ([(w1, ⟨P, freshBindingId (n+1), freshRoleId n, G⟩),
        (w2, ⟨P, freshBindingId (n+2), freshRoleId n, G⟩)], n+3) := by
  simp [replicateRole, processScope, resolveV2Role, lookupV2, findEntry, List.foldl]

lemma replicateRole_create_one (w : String) (P G : Finset String) (n : Nat) :
    replicateRole [] G [(w, P)] n =
      ([(w, ⟨P, freshBindingId (n+1), freshRoleId n, G⟩)], n+2) := by
  simp [replicateRole, processScope, resolveV2Role, lookupV2, findEntry, List.foldl]

lemma replicateRole_keep_change (w1 w2 b1 b2 r1 r2 : String)
    (P S Q Ga Gb G' : Finset String) (n : Nat)
    (hw : w1 ≠ w2) (hPQ : P ≠ Q) (hSQ : S ≠ Q) :
    replicateRole [(w1, ⟨P, b1, r1, Ga⟩), (w2, ⟨S, b2, r2, Gb⟩)] G'
        [(w1, P), (w2, Q)] n =
      ([(w1, ⟨P, b1, r1, Ga⟩), (w2, ⟨Q, freshBindingId (n+1), freshRoleId n, Gb⟩)],
        n+2) := by
  simp [replicateRole, processScope, resolveV2Role, lookupV2, findEntry, List.foldl,
    hw, hPQ, hSQ]

lemma replicateRole_keep_converge (w1 w2 b1 b2 r1 r2 : String)
    (P Q Ga Gb G' : Finset String) (n : Nat)
    (hw : w1 ≠ w2) (hQP : Q ≠ P) :
    replicateRole [(w1, ⟨P, b1, r1, Ga⟩), (w2, ⟨Q, b2, r2, Gb⟩)] G'
        [(w1, P), (w2, P)] n =
      ([(w1, ⟨P, b1, r1, Ga⟩), (w2, ⟨P, freshBindingId n, r1, Gb⟩)], n+1) := by
  simp [replicateRole, processScope, resolveV2Role, lookupV2, findEntry, List.foldl,
    hw, hQP]

lemma replicateRole_drop_first (w1 w2 b1 b2 r1 r2 : String)
    (S P Ga Gb G' : Finset String) (n : Nat) (hw : w1 ≠ w2) :
    replicateRole [(w1, ⟨S, b1, r1, Ga⟩), (w2, ⟨P, b2, r2, Gb⟩)] G' [(w2, P)] n =
      ([(w2, ⟨P, b2, r2, Gb⟩)], n) := by
  simp [replicateRole, processScope, resolveV2Role, lookupV2, findEntry, List.foldl, hw]

lemma replicateRole_keep_keep_add (w1 w2 w3 b1 b2 r1 r2 : String)
    (P Ga Gb G' : Finset String) (n : Nat)
    (hw12 : w1 ≠ w2) (hw13 : w1 ≠ w3) (hw23 : w2 ≠ w3) :
    replicateRole [(w1, ⟨P, b1, r1, Ga⟩), (w2, ⟨P, b2, r2, Gb⟩)] G'
        [(w1, P), (w2, P), (w3, P)] n =
      ([(w1, ⟨P, b1, r1, Ga⟩), (w2, ⟨P, b2, r2, Gb⟩),
        (w3, ⟨P, freshBindingId n, r1, G'⟩)], n+1) := by
  simp [replicateRole, processScope, resolveV2Role, lookupV2, findEntry, List.foldl,
    hw12, hw13, hw23]

lemma replicate_from_empty (G : Finset String) (scopes : List (String × Finset String))
    (n : Nat) :
    (replicate_new_or_updated_role ∅ [] G scopes n).1 =
      mappingTuples (replicateRole [] G scopes n).1 := by
  simp [replicate_new_or_updated_role, roleDiff, mappingTuples, applyDiff,
    InMemoryTuples.write, InMemoryTuples.remove]

lemma replicate_step (store : Finset RelationTuple) (old : RoleMapping)
    (G : Finset String) (scopes : List (String × Finset String)) (n : Nat)
    (h : store = mappingTuples old) :
    (replicate_new_or_updated_role store old G scopes n).1 =
      mappingTuples (replicateRole old G scopes n).1 := by
  subst h
  simpa [replicate_new_or_updated_role, roleDiff] using
    applyDiff_exact (mappingTuples old) (mappingTuples (replicateRole old G scopes n).1)

lemma replicate_union_store (store : Finset RelationTuple) (G : Finset String)
    (scopes : List (String × Finset String)) (n : Nat) :
    (replicate_new_or_updated_role store [] G scopes n).1 =
      store ∪ mappingTuples (replicateRole [] G scopes n).1 := by
  simpa [replicate_new_or_updated_role, roleDiff, mappingTuples] using
    applyDiff_from_empty store (mappingTuples (replicateRole [] G scopes n).1)

lemma replicate_mapping (store : Finset RelationTuple) (old : RoleMapping)
    (G : Finset String) (scopes : List (String × Finset String)) (n : Nat) :
    (replicate_new_or_updated_role store old G scopes n).2.1 =
      (replicateRole old G scopes n).1 := rfl

lemma replicate_counter (store : Finset RelationTuple) (old : RoleMapping)
    (G : Finset String) (scopes : List (String × Finset String)) (n : Nat) :
    (replicate_new_or_updated_role store old G scopes n).2.2 =
      (replicateRole old G scopes n).2 := rfl

/-- Claim C1: replicating a custom role whose scopes resolve to identical
permission sets (default and a second workspace both granting `P`) produces
exactly one V2 Role whose tuples encode that permission set, and one Role
Binding per workspace (two bindings here), both pointing at that single V2
Role. -/
theorem c1_identical_scope_sets_share_one_v2_role
    (w1 w2 : String) (P G : Finset String) (n : Nat) (s : Finset RelationTuple)
    (hw : w1 ≠ w2) (hP : P.Nonempty)
    (hs : s = (replicate_new_or_updated_role ∅ [] G [(w1, P), (w2, P)] n).1) :
    ∃ rid b1 b2, b1 ≠ b2 ∧
      storeV2RoleIds s = {rid} ∧
      roleTuples s rid = P.image (roleTuple rid) ∧
      storeBindingIds s = {b1, b2} ∧
      wsBindings s w1 = {b1} ∧ wsBindings s w2 = {b2} ∧
      grantedOf s b1 = {rid} ∧ grantedOf s b2 = {rid} := by
  have hstore : s = mappingTuples
      [(w1, ⟨P, freshBindingId (n+1), freshRoleId n, G⟩),
       (w2, ⟨P, freshBindingId (n+2), freshRoleId n, G⟩)] := by
    rw [hs, replicate_from_empty, replicateRole_create_two]
  subst hstore
  refine ⟨freshRoleId n, freshBindingId (n+1), freshBindingId (n+2),
    freshBindingId_injective.ne (by omega), ?_, ?_, ?_, ?_, ?_, ?_, ?_⟩
  · simp [mappingTuples, storeV2RoleIds_union, storeV2RoleIds_empty,
      storeV2RoleIds_entryTuples w1 ⟨P, freshBindingId (n+1), freshRoleId n, G⟩ hP,
      storeV2RoleIds_entryTuples w2 ⟨P, freshBindingId (n+2), freshRoleId n, G⟩ hP]
  · simp [mappingTuples, roleTuples_union, roleTuples_empty,
      roleTuples_entryTuples_self w1 ⟨P, freshBindingId (n+1), freshRoleId n, G⟩,
      roleTuples_entryTuples_self w2 ⟨P, freshBindingId (n+2), freshRoleId n, G⟩]
  · simp [mappingTuples, storeBindingIds_union, storeBindingIds_empty,
      storeBindingIds_entryTuples, Finset.insert_eq]
  · simp [mappingTuples, wsBindings_union, wsBindings_empty,
      wsBindings_entryTuples_self w1 ⟨P, freshBindingId (n+1), freshRoleId n, G⟩,
      wsBindings_entryTuples_ne w2 ⟨P, freshBindingId (n+2), freshRoleId n, G⟩ w1
        (Ne.symm hw)]
  · simp [mappingTuples, wsBindings_union, wsBindings_empty,
      wsBindings_entryTuples_self w2 ⟨P, freshBindingId (n+2), freshRoleId n, G⟩,
      wsBindings_entryTuples_ne w1 ⟨P, freshBindingId (n+1), freshRoleId n, G⟩ w2 hw]
  · simp [mappingTuples, grantedOf_union, grantedOf_empty,
      grantedOf_entryTuples_self w1 ⟨P, freshBindingId (n+1), freshRoleId n, G⟩,
      grantedOf_entryTuples_ne w2 ⟨P, freshBindingId (n+2), freshRoleId n, G⟩
        (freshBindingId (n+1)) (freshBindingId_injective.ne (by omega))]
  · simp [mappingTuples, grantedOf_union, grantedOf_empty,
      grantedOf_entryTuples_self w2 ⟨P, freshBindingId (n+2), freshRoleId n, G⟩,
      grantedOf_entryTuples_ne w1 ⟨P, freshBindingId (n+1), freshRoleId n, G⟩
        (freshBindingId (n+2)) (freshBindingId_injective.ne (by omega))]

/-- Witness for C1 at the reference test's concrete role `r1` with
`default = ws_2 = [app1:hosts:read, inventory:hosts:write]`. -/
theorem c1_identical_scope_sets_share_one_v2_role_witness :
    ∃ rid b1 b2, b1 ≠ b2 ∧
      storeV2RoleIds (replicate_new_or_updated_role ∅ [] ∅
        [("1234567", {"app1:hosts:read", "inventory:hosts:write"}),
         ("ws_2", {"app1:hosts:read", "inventory:hosts:write"})] 0).1 = {rid} ∧
      roleTuples (replicate_new_or_updated_role ∅ [] ∅
        [("1234567", {"app1:hosts:read", "inventory:hosts:write"}),
         ("ws_2", {"app1:hosts:read", "inventory:hosts:write"})] 0).1 rid =
        Finset.image (roleTuple rid) {"app1:hosts:read", "inventory:hosts:write"} ∧
      storeBindingIds (replicate_new_or_updated_role ∅ [] ∅
        [("1234567", {"app1:hosts:read", "inventory:hosts:write"}),
         ("ws_2", {"app1:hosts:read", "inventory:hosts:write"})] 0).1 = {b1, b2} ∧
      wsBindings (replicate_new_or_updated_role ∅ [] ∅
        [("1234567", {"app1:hosts:read", "inventory:hosts:write"}),
         ("ws_2", {"app1:hosts:read", "inventory:hosts:write"})] 0).1 "1234567" = {b1} ∧
      wsBindings (replicate_new_or_updated_role ∅ [] ∅
        [("1234567", {"app1:hosts:read", "inventory:hosts:write"}),
         ("ws_2", {"app1:hosts:read", "inventory:hosts:write"})] 0).1 "ws_2" = {b2} ∧
      grantedOf (replicate_new_or_updated_role ∅ [] ∅
        [("1234567", {"app1:hosts:read", "inventory:hosts:write"}),
         ("ws_2", {"app1:hosts:read", "inventory:hosts:write"})] 0).1 b1 = {rid} ∧
      grantedOf (replicate_new_or_updated_role ∅ [] ∅
        [("1234567", {"app1:hosts:read", "inventory:hosts:write"}),
         ("ws_2", {"app1:hosts:read", "inventory:hosts:write"})] 0).1 b2 = {rid} :=
  c1_identical_scope_sets_share_one_v2_role "1234567" "ws_2"
    {"app1:hosts:read", "inventory:hosts:write"} ∅ 0 _
    (by decide) (by decide) rfl

/-- Counterexample to claim C2: replicating two distinct roles that each
grant `{app1:hosts:read, inventory:hosts:write}` on the same workspace
yields two distinct V2 Roles, each encoding that permission set — not the
single shared V2 Role the claim asserts (this is what the reference test
`test_two_roles_with_same_resource_permissions_create_two_v2_roles`
expects). -/
theorem c2_two_roles_counterexample :
    storeV2RoleIds (replicate_new_or_updated_role
        (replicate_new_or_updated_role ∅ [] ∅
          [("1234567", {"app1:hosts:read", "inventory:hosts:write"})] 0).1 [] ∅
        [("1234567", {"app1:hosts:read", "inventory:hosts:write"})]
        (replicate_new_or_updated_role ∅ [] ∅
          [("1234567", {"app1:hosts:read", "inventory:hosts:write"})] 0).2.2).1 =
      {freshRoleId 0, freshRoleId 2} ∧
    freshRoleId 0 ≠ freshRoleId 2 ∧
    roleTuples (replicate_new_or_updated_role
        (replicate_new_or_updated_role ∅ [] ∅
          [("1234567", {"app1:hosts:read", "inventory:hosts:write"})] 0).1 [] ∅
        [("1234567", {"app1:hosts:read", "inventory:hosts:write"})]
        (replicate_new_or_updated_role ∅ [] ∅
          [("1234567", {"app1:hosts:read", "inventory:hosts:write"})] 0).2.2).1
      (freshRoleId 0) =
      Finset.image (roleTuple (freshRoleId 0))
        {"app1:hosts:read", "inventory:hosts:write"} ∧
    roleTuples (replicate_new_or_updated_role
        (replicate_new_or_updated_role ∅ [] ∅
          [("1234567", {"app1:hosts:read", "inventory:hosts:write"})] 0).1 [] ∅
        [("1234567", {"app1:hosts:read", "inventory:hosts:write"})]
        (replicate_new_or_updated_role ∅ [] ∅
          [("1234567", {"app1:hosts:read", "inventory:hosts:write"})] 0).2.2).1
      (freshRoleId 2) =
      Finset.image (roleTuple (freshRoleId 2))
        {"app1:hosts:read", "inventory:hosts:write"} := by
  decide

/-- Claim C2 (amended): two genuinely distinct permission-model roles that
grant the identical permission set bound to the same workspace each get
their own V2 Role with that permission set (two V2 Roles, not one shared),
with two separate Role Bindings, each referencing its own role's V2 Role. -/
theorem c2_two_roles_two_v2_roles
    (w : String) (P G1 G2 : Finset String) (n : Nat)
    (s1 s2 : Finset RelationTuple) (n1 : Nat)
    (hP : P.Nonempty)
    (hs1 : s1 = (replicate_new_or_updated_role ∅ [] G1 [(w, P)] n).1)
    (hn1 : n1 = (replicate_new_or_updated_role ∅ [] G1 [(w, P)] n).2.2)
    (hs2 : s2 = (replicate_new_or_updated_role s1 [] G2 [(w, P)] n1).1) :
    ∃ r1 r2 b1 b2, r1 ≠ r2 ∧ b1 ≠ b2 ∧
      storeV2RoleIds s2 = {r1, r2} ∧
      roleTuples s2 r1 = P.image (roleTuple r1) ∧
      roleTuples s2 r2 = P.image (roleTuple r2) ∧
      storeBindingIds s2 = {b1, b2} ∧
      wsBindings s2 w = {b1, b2} ∧
      grantedOf s2 b1 = {r1} ∧ grantedOf s2 b2 = {r2} := by
  have hn1' : n1 = n + 2 := by
    rw [hn1, replicate_counter, replicateRole_create_one]
  have hstore : s2 = mappingTuples [(w, ⟨P, freshBindingId (n+1), freshRoleId n, G1⟩)] ∪
      mappingTuples [(w, ⟨P, freshBindingId (n+3), freshRoleId (n+2), G2⟩)] := by
    rw [hs2, replicate_union_store, hs1, replicate_from_empty, hn1',
      replicateRole_create_one, replicateRole_create_one]
  subst hstore
  refine ⟨freshRoleId n, freshRoleId (n+2), freshBindingId (n+1), freshBindingId (n+3),
    freshRoleId_injective.ne (by omega), freshBindingId_injective.ne (by omega),
    ?_, ?_, ?_, ?_, ?_, ?_, ?_⟩
  · simp [mappingTuples, storeV2RoleIds_union, storeV2RoleIds_empty,
      storeV2RoleIds_entryTuples w ⟨P, freshBindingId (n+1), freshRoleId n, G1⟩ hP,
      storeV2RoleIds_entryTuples w ⟨P, freshBindingId (n+3), freshRoleId (n+2), G2⟩ hP,
      Finset.insert_eq]
  · simp [mappingTuples, roleTuples_union, roleTuples_empty,
      roleTuples_entryTuples_self w ⟨P, freshBindingId (n+1), freshRoleId n, G1⟩,
      roleTuples_entryTuples_ne w ⟨P, freshBindingId (n+3), freshRoleId (n+2), G2⟩
        (freshRoleId n) (freshRoleId_injective.ne (by omega))]
  · simp [mappingTuples, roleTuples_union, roleTuples_empty,
      roleTuples_entryTuples_self w ⟨P, freshBindingId (n+3), freshRoleId (n+2), G2⟩,
      roleTuples_entryTuples_ne w ⟨P, freshBindingId (n+1), freshRoleId n, G1⟩
        (freshRoleId (n+2)) (freshRoleId_injective.ne (by omega))]
  · simp [mappingTuples, storeBindingIds_union, storeBindingIds_empty,
      storeBindingIds_entryTuples, Finset.insert_eq]
  · simp [mappingTuples, wsBindings_union, wsBindings_empty,
      wsBindings_entryTuples_self w ⟨P, freshBindingId (n+1), freshRoleId n, G1⟩,
      wsBindings_entryTuples_self w ⟨P, freshBindingId (n+3), freshRoleId (n+2), G2⟩,
      Finset.insert_eq]
  · simp [mappingTuples, grantedOf_union, grantedOf_empty,
      grantedOf_entryTuples_self w ⟨P, freshBindingId (n+1), freshRoleId n, G1⟩,
      grantedOf_entryTuples_ne w ⟨P, freshBindingId (n+3), freshRoleId (n+2), G2⟩
        (freshBindingId (n+1)) (freshBindingId_injective.ne (by omega))]
  · simp [mappingTuples, grantedOf_union, grantedOf_empty,
      grantedOf_entryTuples_self w ⟨P, freshBindingId (n+3), freshRoleId (n+2), G2⟩,
      grantedOf_entryTuples_ne w ⟨P, freshBindingId (n+1), freshRoleId n, G1⟩
        (freshBindingId (n+3)) (freshBindingId_injective.ne (by omega))]

/-- Witness for the amended C2 at the reference test's two roles `r1`,
`r2`, both granting the same permission set on the same workspace. -/
theorem c2_two_roles_two_v2_roles_witness :
    ∃ r1 r2 b1 b2, r1 ≠ r2 ∧ b1 ≠ b2 ∧
      storeV2RoleIds (replicate_new_or_updated_role
          (replicate_new_or_updated_role ∅ [] ∅
            [("1234567", {"app1:hosts:read", "inventory:hosts:write"})] 0).1 [] ∅
          [("1234567", {"app1:hosts:read", "inventory:hosts:write"})]
          (replicate_new_or_updated_role ∅ [] ∅
            [("1234567", {"app1:hosts:read", "inventory:hosts:write"})] 0).2.2).1 =
        {r1, r2} ∧
      roleTuples (replicate_new_or_updated_role
          (replicate_new_or_updated_role ∅ [] ∅
            [("1234567", {"app1:hosts:read", "inventory:hosts:write"})] 0).1 [] ∅
          [("1234567", {"app1:hosts:read", "inventory:hosts:write"})]
          (replicate_new_or_updated_role ∅ [] ∅
            [("1234567", {"app1:hosts:read", "inventory:hosts:write"})] 0).2.2).1 r1 =
        Finset.image (roleTuple r1) {"app1:hosts:read", "inventory:hosts:write"} ∧
      roleTuples (replicate_new_or_updated_role
          (replicate_new_or_updated_role ∅ [] ∅
            [("1234567", {"app1:hosts:read", "inventory:hosts:write"})] 0).1 [] ∅
          [("1234567", {"app1:hosts:read", "inventory:hosts:write"})]
          (replicate_new_or_updated_role ∅ [] ∅
            [("1234567", {"app1:hosts:read", "inventory:hosts:write"})] 0).2.2).1 r2 =
        Finset.image (roleTuple r2) {"app1:hosts:read", "inventory:hosts:write"} ∧
      storeBindingIds (replicate_new_or_updated_role
          (replicate_new_or_updated_role ∅ [] ∅
            [("1234567", {"app1:hosts:read", "inventory:hosts:write"})] 0).1 [] ∅
          [("1234567", {"app1:hosts:read", "inventory:hosts:write"})]
          (replicate_new_or_updated_role ∅ [] ∅
            [("1234567", {"app1:hosts:read", "inventory:hosts:write"})] 0).2.2).1 =
        {b1, b2} ∧
      wsBindings (replicate_new_or_updated_role
          (replicate_new_or_updated_role ∅ [] ∅
            [("1234567", {"app1:hosts:read", "inventory:hosts:write"})] 0).1 [] ∅
          [("1234567", {"app1:hosts:read", "inventory:hosts:write"})]
          (replicate_new_or_updated_role ∅ [] ∅
            [("1234567", {"app1:hosts:read", "inventory:hosts:write"})] 0).2.2).1
        "1234567" = {b1, b2} ∧
      grantedOf (replicate_new_or_updated_role
          (replicate_new_or_updated_role ∅ [] ∅
            [("1234567", {"app1:hosts:read", "inventory:hosts:write"})] 0).1 [] ∅
          [("1234567", {"app1:hosts:read", "inventory:hosts:write"})]
          (replicate_new_or_updated_role ∅ [] ∅
            [("1234567", {"app1:hosts:read", "inventory:hosts:write"})] 0).2.2).1 b1 =
        {r1} ∧
      grantedOf (replicate_new_or_updated_role
          (replicate_new_or_updated_role ∅ [] ∅
            [("1234567", {"app1:hosts:read", "inventory:hosts:write"})] 0).1 [] ∅
          [("1234567", {"app1:hosts:read", "inventory:hosts:write"})]
          (replicate_new_or_updated_role ∅ [] ∅
            [("1234567", {"app1:hosts:read", "inventory:hosts:write"})] 0).2.2).1 b2 =
        {r2} :=
  c2_two_roles_two_v2_roles "1234567" {"app1:hosts:read", "inventory:hosts:write"} ∅ ∅ 0
    _ _ _ (by decide) rfl rfl rfl

lemma roleDiff_avoids_kept_entry (m1 m2 : RoleMapping) (ws : String) (e : BindingEntry)
    (h1 : (ws, e) ∈ m1) (h2 : (ws, e) ∈ m2) :
    (roleDiff m1 m2).1 ∩ entryTuples ws e = ∅ ∧
      (roleDiff m1 m2).2 ∩ entryTuples ws e = ∅ := by
  constructor
  · ext t
    simp only [roleDiff, Finset.mem_inter, Finset.mem_sdiff, Finset.not_mem_empty,
      iff_false, not_and]
    rintro ⟨-, hnot⟩ hE
    exact absurd (entryTuples_subset_mappingTuples h1 hE) hnot
  · ext t
    simp only [roleDiff, Finset.mem_inter, Finset.mem_sdiff, Finset.not_mem_empty,
      iff_false, not_and]
    rintro ⟨-, hnot⟩ hE
    exact absurd (entryTuples_subset_mappingTuples h2 hE) hnot

/-- Claim C3: an update that changes only one workspace scope's permission
set (ws_2 from `P` to `Q`) leaves the V2 Role tuples and Role Binding
tuples backing the untouched default workspace byte-for-byte unchanged: the
default entry survives identically, neither the written nor the deleted
tuples of the update's diff touch it, and every observation of the default
workspace's slice of the store is unchanged. -/
theorem c3_update_preserves_unaffected_workspace
    (w1 w2 : String) (P Q G G' : Finset String) (n : Nat)
    (s1 s2 : Finset RelationTuple) (m1 m2 : RoleMapping) (n1 : Nat)
    (hw : w1 ≠ w2) (hPQ : P ≠ Q)
    (hs1 : s1 = (replicate_new_or_updated_role ∅ [] G [(w1, P), (w2, P)] n).1)
    (hm1 : m1 = (replicate_new_or_updated_role ∅ [] G [(w1, P), (w2, P)] n).2.1)
    (hn1 : n1 = (replicate_new_or_updated_role ∅ [] G [(w1, P), (w2, P)] n).2.2)
    (hs2 : s2 = (replicate_new_or_updated_role s1 m1 G' [(w1, P), (w2, Q)] n1).1)
    (hm2 : m2 = (replicate_new_or_updated_role s1 m1 G' [(w1, P), (w2, Q)] n1).2.1) :
    ∃ e1, findEntry w1 m1 = some e1 ∧ findEntry w1 m2 = some e1 ∧
      (roleDiff m1 m2).1 ∩ entryTuples w1 e1 = ∅ ∧
      (roleDiff m1 m2).2 ∩ entryTuples w1 e1 = ∅ ∧
      wsBindings s2 w1 = wsBindings s1 w1 ∧
      grantedOf s2 e1.bindingId = grantedOf s1 e1.bindingId ∧
      roleTuples s2 e1.v2RoleId = roleTuples s1 e1.v2RoleId ∧
      groupsOf s2 e1.bindingId = groupsOf s1 e1.bindingId := by
  have hm1' : m1 = [(w1, ⟨P, freshBindingId (n+1), freshRoleId n, G⟩),
      (w2, ⟨P, freshBindingId (n+2), freshRoleId n, G⟩)] := by
    rw [hm1, replicate_mapping, replicateRole_create_two]
  have hn1' : n1 = n + 3 := by
    rw [hn1, replicate_counter, replicateRole_create_two]
  have hs1' : s1 = mappingTuples [(w1, ⟨P, freshBindingId (n+1), freshRoleId n, G⟩),
      (w2, ⟨P, freshBindingId (n+2), freshRoleId n, G⟩)] := by
    rw [hs1, replicate_from_empty, replicateRole_create_two]
  have hm2' : m2 = [(w1, ⟨P, freshBindingId (n+1), freshRoleId n, G⟩),
      (w2, ⟨Q, freshBindingId (n+4), freshRoleId (n+3), G⟩)] := by
    rw [hm2, replicate_mapping, hm1', hn1',
      replicateRole_keep_change w1 w2 (freshBindingId (n+1)) (freshBindingId (n+2))
        (freshRoleId n) (freshRoleId n) P P Q G G G' (n+3) hw hPQ hPQ]
  have hs2' : s2 = mappingTuples [(w1, ⟨P, freshBindingId (n+1), freshRoleId n, G⟩),
      (w2, ⟨Q, freshBindingId (n+4), freshRoleId (n+3), G⟩)] := by
    rw [hs2, replicate_step s1 m1 G' [(w1, P), (w2, Q)] n1 (by rw [hs1', hm1']),
      hm1', hn1',
      replicateRole_keep_change w1 w2 (freshBindingId (n+1)) (freshBindingId (n+2))
        (freshRoleId n) (freshRoleId n) P P Q G G G' (n+3) hw hPQ hPQ]
  refine ⟨⟨P, freshBindingId (n+1), freshRoleId n, G⟩, ?_, ?_, ?_, ?_, ?_, ?_, ?_, ?_⟩
  · rw [hm1']
    simp [findEntry]
  · rw [hm2']
    simp [findEntry]
  · exact (roleDiff_avoids_kept_entry m1 m2 w1 _ (by rw [hm1']; simp)
      (by rw [hm2']; simp)).1
  · exact (roleDiff_avoids_kept_entry m1 m2 w1 _ (by rw [hm1']; simp)
      (by rw [hm2']; simp)).2
  · rw [hs1', hs2']
    simp [mappingTuples, wsBindings_union, wsBindings_empty,
      wsBindings_entryTuples_self w1 ⟨P, freshBindingId (n+1), freshRoleId n, G⟩,
      wsBindings_entryTuples_ne w2 ⟨P, freshBindingId (n+2), freshRoleId n, G⟩ w1
        (Ne.symm hw),
      wsBindings_entryTuples_ne w2 ⟨Q, freshBindingId (n+4), freshRoleId (n+3), G⟩ w1
        (Ne.symm hw)]
  · rw [hs1', hs2']
    simp [mappingTuples, grantedOf_union, grantedOf_empty,
      grantedOf_entryTuples_self w1 ⟨P, freshBindingId (n+1), freshRoleId n, G⟩,
      grantedOf_entryTuples_ne w2 ⟨P, freshBindingId (n+2), freshRoleId n, G⟩
        (freshBindingId (n+1)) (freshBindingId_injective.ne (by omega)),
      grantedOf_entryTuples_ne w2 ⟨Q, freshBindingId (n+4), freshRoleId (n+3), G⟩
        (freshBindingId (n+1)) (freshBindingId_injective.ne (by omega))]
  · rw [hs1', hs2']
    simp [mappingTuples, roleTuples_union, roleTuples_empty,
      roleTuples_entryTuples_self w1 ⟨P, freshBindingId (n+1), freshRoleId n, G⟩,
      roleTuples_entryTuples_self w2 ⟨P, freshBindingId (n+2), freshRoleId n, G⟩,
      roleTuples_entryTuples_ne w2 ⟨Q, freshBindingId (n+4), freshRoleId (n+3), G⟩
        (freshRoleId n) (freshRoleId_injective.ne (by omega))]
  · rw [hs1', hs2']
    simp [mappingTuples, groupsOf_union, groupsOf_empty,
      groupsOf_entryTuples_self w1 ⟨P, freshBindingId (n+1), freshRoleId n, G⟩,
      groupsOf_entryTuples_ne w2 ⟨P, freshBindingId (n+2), freshRoleId n, G⟩
        (freshBindingId (n+1)) (freshBindingId_injective.ne (by omega)),
      groupsOf_entryTuples_ne w2 ⟨Q, freshBindingId (n+4), freshRoleId (n+3), G⟩
        (freshBindingId (n+1)) (freshBindingId_injective.ne (by omega))]

/-- Witness for C3 at the reference test's scenario: `ws_2` gains
`app2:hosts:read` while the default workspace is untouched. -/
theorem c3_update_preserves_unaffected_workspace_witness :
    ∃ e1, findEntry "1234567" (replicate_new_or_updated_role ∅ [] ∅ [("1234567", ({"app1:hosts:read", "inventory:hosts:write"} : Finset String)), ("ws_2", ({"app1:hosts:read", "inventory:hosts:write"} : Finset String))] 0).2.1 = some e1 ∧
      findEntry "1234567" (replicate_new_or_updated_role (replicate_new_or_updated_role ∅ [] ∅ [("1234567", ({"app1:hosts:read", "inventory:hosts:write"} : Finset String)), ("ws_2", ({"app1:hosts:read", "inventory:hosts:write"} : Finset String))] 0).1 (replicate_new_or_updated_role ∅ [] ∅ [("1234567", ({"app1:hosts:read", "inventory:hosts:write"} : Finset String)), ("ws_2", ({"app1:hosts:read", "inventory:hosts:write"} : Finset String))] 0).2.1 ∅ [("1234567", ({"app1:hosts:read", "inventory:hosts:write"} : Finset String)), ("ws_2", ({"app1:hosts:read", "inventory:hosts:write", "app2:hosts:read"} : Finset String))] (replicate_new_or_updated_role ∅ [] ∅ [("1234567", ({"app1:hosts:read", "inventory:hosts:write"} : Finset String)), ("ws_2", ({"app1:hosts:read", "inventory:hosts:write"} : Finset String))] 0).2.2).2.1 = some e1 ∧
      (roleDiff (replicate_new_or_updated_role ∅ [] ∅ [("1234567", ({"app1:hosts:read", "inventory:hosts:write"} : Finset String)), ("ws_2", ({"app1:hosts:read", "inventory:hosts:write"} : Finset String))] 0).2.1 (replicate_new_or_updated_role (replicate_new_or_updated_role ∅ [] ∅ [("1234567", ({"app1:hosts:read", "inventory:hosts:write"} : Finset String)), ("ws_2", ({"app1:hosts:read", "inventory:hosts:write"} : Finset String))] 0).1 (replicate_new_or_updated_role ∅ [] ∅ [("1234567", ({"app1:hosts:read", "inventory:hosts:write"} : Finset String)), ("ws_2", ({"app1:hosts:read", "inventory:hosts:write"} : Finset String))] 0).2.1 ∅ [("1234567", ({"app1:hosts:read", "inventory:hosts:write"} : Finset String)), ("ws_2", ({"app1:hosts:read", "inventory:hosts:write", "app2:hosts:read"} : Finset String))] (replicate_new_or_updated_role ∅ [] ∅ [("1234567", ({"app1:hosts:read", "inventory:hosts:write"} : Finset String)), ("ws_2", ({"app1:hosts:read", "inventory:hosts:write"} : Finset String))] 0).2.2).2.1).1 ∩ entryTuples "1234567" e1 = ∅ ∧
      (roleDiff (replicate_new_or_updated_role ∅ [] ∅ [("1234567", ({"app1:hosts:read", "inventory:hosts:write"} : Finset String)), ("ws_2", ({"app1:hosts:read", "inventory:hosts:write"} : Finset String))] 0).2.1 (replicate_new_or_updated_role (replicate_new_or_updated_role ∅ [] ∅ [("1234567", ({"app1:hosts:read", "inventory:hosts:write"} : Finset String)), ("ws_2", ({"app1:hosts:read", "inventory:hosts:write"} : Finset String))] 0).1 (replicate_new_or_updated_role ∅ [] ∅ [("1234567", ({"app1:hosts:read", "inventory:hosts:write"} : Finset String)), ("ws_2", ({"app1:hosts:read", "inventory:hosts:write"} : Finset String))] 0).2.1 ∅ [("1234567", ({"app1:hosts:read", "inventory:hosts:write"} : Finset String)), ("ws_2", ({"app1:hosts:read", "inventory:hosts:write", "app2:hosts:read"} : Finset String))] (replicate_new_or_updated_role ∅ [] ∅ [("1234567", ({"app1:hosts:read", "inventory:hosts:write"} : Finset String)), ("ws_2", ({"app1:hosts:read", "inventory:hosts:write"} : Finset String))] 0).2.2).2.1).2 ∩ entryTuples "1234567" e1 = ∅ ∧
      wsBindings (replicate_new_or_updated_role (replicate_new_or_updated_role ∅ [] ∅ [("1234567", ({"app1:hosts:read", "inventory:hosts:write"} : Finset String)), ("ws_2", ({"app1:hosts:read", "inventory:hosts:write"} : Finset String))] 0).1 (replicate_new_or_updated_role ∅ [] ∅ [("1234567", ({"app1:hosts:read", "inventory:hosts:write"} : Finset String)), ("ws_2", ({"app1:hosts:read", "inventory:hosts:write"} : Finset String))] 0).2.1 ∅ [("1234567", ({"app1:hosts:read", "inventory:hosts:write"} : Finset String)), ("ws_2", ({"app1:hosts:read", "inventory:hosts:write", "app2:hosts:read"} : Finset String))] (replicate_new_or_updated_role ∅ [] ∅ [("1234567", ({"app1:hosts:read", "inventory:hosts:write"} : Finset String)), ("ws_2", ({"app1:hosts:read", "inventory:hosts:write"} : Finset String))] 0).2.2).1 "1234567" = wsBindings (replicate_new_or_updated_role ∅ [] ∅ [("1234567", ({"app1:hosts:read", "inventory:hosts:write"} : Finset String)), ("ws_2", ({"app1:hosts:read", "inventory:hosts:write"} : Finset String))] 0).1 "1234567" ∧
      grantedOf (replicate_new_or_updated_role (replicate_new_or_updated_role ∅ [] ∅ [("1234567", ({"app1:hosts:read", "inventory:hosts:write"} : Finset String)), ("ws_2", ({"app1:hosts:read", "inventory:hosts:write"} : Finset String))] 0).1 (replicate_new_or_updated_role ∅ [] ∅ [("1234567", ({"app1:hosts:read", "inventory:hosts:write"} : Finset String)), ("ws_2", ({"app1:hosts:read", "inventory:hosts:write"} : Finset String))] 0).2.1 ∅ [("1234567", ({"app1:hosts:read", "inventory:hosts:write"} : Finset String)), ("ws_2", ({"app1:hosts:read", "inventory:hosts:write", "app2:hosts:read"} : Finset String))] (replicate_new_or_updated_role ∅ [] ∅ [("1234567", ({"app1:hosts:read", "inventory:hosts:write"} : Finset String)), ("ws_2", ({"app1:hosts:read", "inventory:hosts:write"} : Finset String))] 0).2.2).1 e1.bindingId = grantedOf (replicate_new_or_updated_role ∅ [] ∅ [("1234567", ({"app1:hosts:read", "inventory:hosts:write"} : Finset String)), ("ws_2", ({"app1:hosts:read", "inventory:hosts:write"} : Finset String))] 0).1 e1.bindingId ∧
      roleTuples (replicate_new_or_updated_role (replicate_new_or_updated_role ∅ [] ∅ [("1234567", ({"app1:hosts:read", "inventory:hosts:write"} : Finset String)), ("ws_2", ({"app1:hosts:read", "inventory:hosts:write"} : Finset String))] 0).1 (replicate_new_or_updated_role ∅ [] ∅ [("1234567", ({"app1:hosts:read", "inventory:hosts:write"} : Finset String)), ("ws_2", ({"app1:hosts:read", "inventory:hosts:write"} : Finset String))] 0).2.1 ∅ [("1234567", ({"app1:hosts:read", "inventory:hosts:write"} : Finset String)), ("ws_2", ({"app1:hosts:read", "inventory:hosts:write", "app2:hosts:read"} : Finset String))] (replicate_new_or_updated_role ∅ [] ∅ [("1234567", ({"app1:hosts:read", "inventory:hosts:write"} : Finset String)), ("ws_2", ({"app1:hosts:read", "inventory:hosts:write"} : Finset String))] 0).2.2).1 e1.v2RoleId = roleTuples (replicate_new_or_updated_role ∅ [] ∅ [("1234567", ({"app1:hosts:read", "inventory:hosts:write"} : Finset String)), ("ws_2", ({"app1:hosts:read", "inventory:hosts:write"} : Finset String))] 0).1 e1.v2RoleId ∧
      groupsOf (replicate_new_or_updated_role (replicate_new_or_updated_role ∅ [] ∅ [("1234567", ({"app1:hosts:read", "inventory:hosts:write"} : Finset String)), ("ws_2", ({"app1:hosts:read", "inventory:hosts:write"} : Finset String))] 0).1 (replicate_new_or_updated_role ∅ [] ∅ [("1234567", ({"app1:hosts:read", "inventory:hosts:write"} : Finset String)), ("ws_2", ({"app1:hosts:read", "inventory:hosts:write"} : Finset String))] 0).2.1 ∅ [("1234567", ({"app1:hosts:read", "inventory:hosts:write"} : Finset String)), ("ws_2", ({"app1:hosts:read", "inventory:hosts:write", "app2:hosts:read"} : Finset String))] (replicate_new_or_updated_role ∅ [] ∅ [("1234567", ({"app1:hosts:read", "inventory:hosts:write"} : Finset String)), ("ws_2", ({"app1:hosts:read", "inventory:hosts:write"} : Finset String))] 0).2.2).1 e1.bindingId = groupsOf (replicate_new_or_updated_role ∅ [] ∅ [("1234567", ({"app1:hosts:read", "inventory:hosts:write"} : Finset String)), ("ws_2", ({"app1:hosts:read", "inventory:hosts:write"} : Finset String))] 0).1 e1.bindingId :=
  c3_update_preserves_unaffected_workspace "1234567" "ws_2" ({"app1:hosts:read", "inventory:hosts:write"} : Finset String) ({"app1:hosts:read", "inventory:hosts:write", "app2:hosts:read"} : Finset String) ∅ ∅ 0
    _ _ _ _ _ (by decide) (by decide) rfl rfl rfl rfl rfl

/-- Counterexample to claim C4's final clause: updating `ws_2` away from
and back to the original permission set does not return the tuple store
byte-for-byte to its original state — the converged workspace's Role
Binding is recreated under a fresh identifier (`binding identity changes`
on every permission-set change), even though the V2 Role is reused. -/
theorem c4_convergence_counterexample :
    (replicate_new_or_updated_role
        (replicate_new_or_updated_role
          (replicate_new_or_updated_role ∅ [] ∅
            [("1234567", {"app1:hosts:read", "inventory:hosts:write"}),
             ("ws_2", {"app1:hosts:read", "inventory:hosts:write"})] 0).1
          (replicate_new_or_updated_role ∅ [] ∅
            [("1234567", {"app1:hosts:read", "inventory:hosts:write"}),
             ("ws_2", {"app1:hosts:read", "inventory:hosts:write"})] 0).2.1 ∅
          [("1234567", {"app1:hosts:read", "inventory:hosts:write"}),
           ("ws_2", {"app1:hosts:read", "inventory:hosts:write", "app2:hosts:read"})]
          (replicate_new_or_updated_role ∅ [] ∅
            [("1234567", {"app1:hosts:read", "inventory:hosts:write"}),
             ("ws_2", {"app1:hosts:read", "inventory:hosts:write"})] 0).2.2).1
        (replicate_new_or_updated_role
          (replicate_new_or_updated_role ∅ [] ∅
            [("1234567", {"app1:hosts:read", "inventory:hosts:write"}),
             ("ws_2", {"app1:hosts:read", "inventory:hosts:write"})] 0).1
          (replicate_new_or_updated_role ∅ [] ∅
            [("1234567", {"app1:hosts:read", "inventory:hosts:write"}),
             ("ws_2", {"app1:hosts:read", "inventory:hosts:write"})] 0).2.1 ∅
          [("1234567", {"app1:hosts:read", "inventory:hosts:write"}),
           ("ws_2", {"app1:hosts:read", "inventory:hosts:write", "app2:hosts:read"})]
          (replicate_new_or_updated_role ∅ [] ∅
            [("1234567", {"app1:hosts:read", "inventory:hosts:write"}),
             ("ws_2", {"app1:hosts:read", "inventory:hosts:write"})] 0).2.2).2.1 ∅
        [("1234567", {"app1:hosts:read", "inventory:hosts:write"}),
         ("ws_2", {"app1:hosts:read", "inventory:hosts:write"})]
        (replicate_new_or_updated_role
          (replicate_new_or_updated_role ∅ [] ∅
            [("1234567", {"app1:hosts:read", "inventory:hosts:write"}),
             ("ws_2", {"app1:hosts:read", "inventory:hosts:write"})] 0).1
          (replicate_new_or_updated_role ∅ [] ∅
            [("1234567", {"app1:hosts:read", "inventory:hosts:write"}),
             ("ws_2", {"app1:hosts:read", "inventory:hosts:write"})] 0).2.1 ∅
          [("1234567", {"app1:hosts:read", "inventory:hosts:write"}),
           ("ws_2", {"app1:hosts:read", "inventory:hosts:write", "app2:hosts:read"})]
          (replicate_new_or_updated_role ∅ [] ∅
            [("1234567", {"app1:hosts:read", "inventory:hosts:write"}),
             ("ws_2", {"app1:hosts:read", "inventory:hosts:write"})] 0).2.2).2.2).1 ≠
      (replicate_new_or_updated_role ∅ [] ∅
        [("1234567", {"app1:hosts:read", "inventory:hosts:write"}),
         ("ws_2", {"app1:hosts:read", "inventory:hosts:write"})] 0).1 := by
  decide

/-- Claim C4 (amended): when an update makes two previously-distinct
workspace permission sets converge to the same set, both workspaces' Role
Bindings point at one single V2 Role — the original matching V2 Role is
reused, not duplicated — and the now-orphaned V2 Role's tuples are gone;
the store returns to the original single-role structure except that the
converged workspace's Role Binding carries a fresh identifier. -/
theorem c4_convergence_reuses_v2_role
    (w1 w2 : String) (P Q G G1 G2 : Finset String) (n : Nat)
    (s1 s3 : Finset RelationTuple) (m1 m2 : RoleMapping) (n1 n2 : Nat)
    (hw : w1 ≠ w2) (hPQ : P ≠ Q) (hP : P.Nonempty)
    (hs1 : s1 = (replicate_new_or_updated_role ∅ [] G [(w1, P), (w2, P)] n).1)
    (hm1 : m1 = (replicate_new_or_updated_role ∅ [] G [(w1, P), (w2, P)] n).2.1)
    (hn1 : n1 = (replicate_new_or_updated_role ∅ [] G [(w1, P), (w2, P)] n).2.2)
    (hm2 : m2 = (replicate_new_or_updated_role s1 m1 G1 [(w1, P), (w2, Q)] n1).2.1)
    (hn2 : n2 = (replicate_new_or_updated_role s1 m1 G1 [(w1, P), (w2, Q)] n1).2.2)
    (hs3 : s3 = (replicate_new_or_updated_role
      (replicate_new_or_updated_role s1 m1 G1 [(w1, P), (w2, Q)] n1).1 m2 G2
      [(w1, P), (w2, P)] n2).1) :
    ∃ rid b1 b2,
      b1 ≠ b2 ∧
      storeV2RoleIds s1 = {rid} ∧ wsBindings s1 w1 = {b1} ∧
      storeV2RoleIds s3 = {rid} ∧
      roleTuples s3 rid = P.image (roleTuple rid) ∧
      wsBindings s3 w1 = {b1} ∧ wsBindings s3 w2 = {b2} ∧
      grantedOf s3 b1 = {rid} ∧ grantedOf s3 b2 = {rid} ∧
      (∃ e2, findEntry w2 m2 = some e2 ∧ e2.v2RoleId ≠ rid ∧
        roleTuples s3 e2.v2RoleId = ∅) ∧
      b2 ∉ storeBindingIds s1 := by
  have hm1' : m1 = [(w1, ⟨P, freshBindingId (n+1), freshRoleId n, G⟩),
      (w2, ⟨P, freshBindingId (n+2), freshRoleId n, G⟩)] := by
    rw [hm1, replicate_mapping, replicateRole_create_two]
  have hn1' : n1 = n + 3 := by
    rw [hn1, replicate_counter, replicateRole_create_two]
  have hs1' : s1 = mappingTuples [(w1, ⟨P, freshBindingId (n+1), freshRoleId n, G⟩),
      (w2, ⟨P, freshBindingId (n+2), freshRoleId n, G⟩)] := by
    rw [hs1, replicate_from_empty, replicateRole_create_two]
  have hm2' : m2 = [(w1, ⟨P, freshBindingId (n+1), freshRoleId n, G⟩),
      (w2, ⟨Q, freshBindingId (n+4), freshRoleId (n+3), G⟩)] := by
    rw [hm2, replicate_mapping, hm1', hn1',
      replicateRole_keep_change w1 w2 (freshBindingId (n+1)) (freshBindingId (n+2))
        (freshRoleId n) (freshRoleId n) P P Q G G G1 (n+3) hw hPQ hPQ]
  have hn2' : n2 = n + 5 := by
    rw [hn2, replicate_counter, hm1', hn1',
      replicateRole_keep_change w1 w2 (freshBindingId (n+1)) (freshBindingId (n+2))
        (freshRoleId n) (freshRoleId n) P P Q G G G1 (n+3) hw hPQ hPQ]
  have hs2' : (replicate_new_or_updated_role s1 m1 G1 [(w1, P), (w2, Q)] n1).1 =
      mappingTuples [(w1, ⟨P, freshBindingId (n+1), freshRoleId n, G⟩),
        (w2, ⟨Q, freshBindingId (n+4), freshRoleId (n+3), G⟩)] := by
    rw [replicate_step s1 m1 G1 [(w1, P), (w2, Q)] n1 (by rw [hs1', hm1']),
      hm1', hn1',
      replicateRole_keep_change w1 w2 (freshBindingId (n+1)) (freshBindingId (n+2))
        (freshRoleId n) (freshRoleId n) P P Q G G G1 (n+3) hw hPQ hPQ]
  have hs3' : s3 = mappingTuples [(w1, ⟨P, freshBindingId (n+1), freshRoleId n, G⟩),
      (w2, ⟨P, freshBindingId (n+5), freshRoleId n, G⟩)] := by
    rw [hs3, replicate_step _ m2 G2 [(w1, P), (w2, P)] n2 (by rw [hs2', hm2']),
      hm2', hn2',
      replicateRole_keep_converge w1 w2 (freshBindingId (n+1)) (freshBindingId (n+4))
        (freshRoleId n) (freshRoleId (n+3)) P Q G G G2 (n+5) hw (Ne.symm hPQ)]
  refine ⟨freshRoleId n, freshBindingId (n+1), freshBindingId (n+5),
    freshBindingId_injective.ne (by omega), ?_, ?_, ?_, ?_, ?_, ?_, ?_, ?_, ?_, ?_⟩
  · rw [hs1']
    simp [mappingTuples, storeV2RoleIds_union, storeV2RoleIds_empty,
      storeV2RoleIds_entryTuples w1 ⟨P, freshBindingId (n+1), freshRoleId n, G⟩ hP,
      storeV2RoleIds_entryTuples w2 ⟨P, freshBindingId (n+2), freshRoleId n, G⟩ hP]
  · rw [hs1']
    simp [mappingTuples, wsBindings_union, wsBindings_empty,
      wsBindings_entryTuples_self w1 ⟨P, freshBindingId (n+1), freshRoleId n, G⟩,
      wsBindings_entryTuples_ne w2 ⟨P, freshBindingId (n+2), freshRoleId n, G⟩ w1
        (Ne.symm hw)]
  · rw [hs3']
    simp [mappingTuples, storeV2RoleIds_union, storeV2RoleIds_empty,
      storeV2RoleIds_entryTuples w1 ⟨P, freshBindingId (n+1), freshRoleId n, G⟩ hP,
      storeV2RoleIds_entryTuples w2 ⟨P, freshBindingId (n+5), freshRoleId n, G⟩ hP]
  · rw [hs3']
    simp [mappingTuples, roleTuples_union, roleTuples_empty,
      roleTuples_entryTuples_self w1 ⟨P, freshBindingId (n+1), freshRoleId n, G⟩,
      roleTuples_entryTuples_self w2 ⟨P, freshBindingId (n+5), freshRoleId n, G⟩]
  · rw [hs3']
    simp [mappingTuples, wsBindings_union, wsBindings_empty,
      wsBindings_entryTuples_self w1 ⟨P, freshBindingId (n+1), freshRoleId n, G⟩,
      wsBindings_entryTuples_ne w2 ⟨P, freshBindingId (n+5), freshRoleId n, G⟩ w1
        (Ne.symm hw)]
  · rw [hs3']
    simp [mappingTuples, wsBindings_union, wsBindings_empty,
      wsBindings_entryTuples_self w2 ⟨P, freshBindingId (n+5), freshRoleId n, G⟩,
      wsBindings_entryTuples_ne w1 ⟨P, freshBindingId (n+1), freshRoleId n, G⟩ w2 hw]
  · rw [hs3']
    simp [mappingTuples, grantedOf_union, grantedOf_empty,
      grantedOf_entryTuples_self w1 ⟨P, freshBindingId (n+1), freshRoleId n, G⟩,
      grantedOf_entryTuples_ne w2 ⟨P, freshBindingId (n+5), freshRoleId n, G⟩
        (freshBindingId (n+1)) (freshBindingId_injective.ne (by omega))]
  · rw [hs3']
    simp [mappingTuples, grantedOf_union, grantedOf_empty,
      grantedOf_entryTuples_self w2 ⟨P, freshBindingId (n+5), freshRoleId n, G⟩,
      grantedOf_entryTuples_ne w1 ⟨P, freshBindingId (n+1), freshRoleId n, G⟩
        (freshBindingId (n+5)) (freshBindingId_injective.ne (by omega))]
  · refine ⟨⟨Q, freshBindingId (n+4), freshRoleId (n+3), G⟩, ?_, ?_, ?_⟩
    · rw [hm2']
      simp [findEntry, hw]
    · exact freshRoleId_injective.ne (by omega)
    · rw [hs3']
      simp [mappingTuples, roleTuples_union, roleTuples_empty,
        roleTuples_entryTuples_ne w1 ⟨P, freshBindingId (n+1), freshRoleId n, G⟩
          (freshRoleId (n+3)) (freshRoleId_injective.ne (by omega)),
        roleTuples_entryTuples_ne w2 ⟨P, freshBindingId (n+5), freshRoleId n, G⟩
          (freshRoleId (n+3)) (freshRoleId_injective.ne (by omega))]
  · rw [hs1']
    simp [mappingTuples, storeBindingIds_union, storeBindingIds_empty,
      storeBindingIds_entryTuples, freshBindingId_injective.ne
        (show n+5 ≠ n+1 by omega),
      freshBindingId_injective.ne (show n+5 ≠ n+2 by omega)]

/-- Witness for the amended C4 at the reference test's scenario: `ws_2`
gains and then loses `app2:hosts:read`, converging back to the default
workspace's permission set. -/
theorem c4_convergence_reuses_v2_role_witness :
    ∃ rid b1 b2,
      b1 ≠ b2 ∧
      storeV2RoleIds (replicate_new_or_updated_role ∅ [] ∅ [("1234567", ({"app1:hosts:read", "inventory:hosts:write"} : Finset String)), ("ws_2", ({"app1:hosts:read", "inventory:hosts:write"} : Finset String))] 0).1 = {rid} ∧ wsBindings (replicate_new_or_updated_role ∅ [] ∅ [("1234567", ({"app1:hosts:read", "inventory:hosts:write"} : Finset String)), ("ws_2", ({"app1:hosts:read", "inventory:hosts:write"} : Finset String))] 0).1 "1234567" = {b1} ∧
      storeV2RoleIds (replicate_new_or_updated_role (replicate_new_or_updated_role (replicate_new_or_updated_role ∅ [] ∅ [("1234567", ({"app1:hosts:read", "inventory:hosts:write"} : Finset String)), ("ws_2", ({"app1:hosts:read", "inventory:hosts:write"} : Finset String))] 0).1 (replicate_new_or_updated_role ∅ [] ∅ [("1234567", ({"app1:hosts:read", "inventory:hosts:write"} : Finset String)), ("ws_2", ({"app1:hosts:read", "inventory:hosts:write"} : Finset String))] 0).2.1 ∅ [("1234567", ({"app1:hosts:read", "inventory:hosts:write"} : Finset String)), ("ws_2", ({"app1:hosts:read", "inventory:hosts:write", "app2:hosts:read"} : Finset String))] (replicate_new_or_updated_role ∅ [] ∅ [("1234567", ({"app1:hosts:read", "inventory:hosts:write"} : Finset String)), ("ws_2", ({"app1:hosts:read", "inventory:hosts:write"} : Finset String))] 0).2.2).1 (replicate_new_or_updated_role (replicate_new_or_updated_role ∅ [] ∅ [("1234567", ({"app1:hosts:read", "inventory:hosts:write"} : Finset String)), ("ws_2", ({"app1:hosts:read", "inventory:hosts:write"} : Finset String))] 0).1 (replicate_new_or_updated_role ∅ [] ∅ [("1234567", ({"app1:hosts:read", "inventory:hosts:write"} : Finset String)), ("ws_2", ({"app1:hosts:read", "inventory:hosts:write"} : Finset String))] 0).2.1 ∅ [("1234567", ({"app1:hosts:read", "inventory:hosts:write"} : Finset String)), ("ws_2", ({"app1:hosts:read", "inventory:hosts:write", "app2:hosts:read"} : Finset String))] (replicate_new_or_updated_role ∅ [] ∅ [("1234567", ({"app1:hosts:read", "inventory:hosts:write"} : Finset String)), ("ws_2", ({"app1:hosts:read", "inventory:hosts:write"} : Finset String))] 0).2.2).2.1 ∅ [("1234567", ({"app1:hosts:read", "inventory:hosts:write"} : Finset String)), ("ws_2", ({"app1:hosts:read", "inventory:hosts:write"} : Finset String))] (replicate_new_or_updated_role (replicate_new_or_updated_role ∅ [] ∅ [("1234567", ({"app1:hosts:read", "inventory:hosts:write"} : Finset String)), ("ws_2", ({"app1:hosts:read", "inventory:hosts:write"} : Finset String))] 0).1 (replicate_new_or_updated_role ∅ [] ∅ [("1234567", ({"app1:hosts:read", "inventory:hosts:write"} : Finset String)), ("ws_2", ({"app1:hosts:read", "inventory:hosts:write"} : Finset String))] 0).2.1 ∅ [("1234567", ({"app1:hosts:read", "inventory:hosts:write"} : Finset String)), ("ws_2", ({"app1:hosts:read", "inventory:hosts:write", "app2:hosts:read"} : Finset String))] (replicate_new_or_updated_role ∅ [] ∅ [("1234567", ({"app1:hosts:read", "inventory:hosts:write"} : Finset String)), ("ws_2", ({"app1:hosts:read", "inventory:hosts:write"} : Finset String))] 0).2.2).2.2).1 = {rid} ∧
      roleTuples (replicate_new_or_updated_role (replicate_new_or_updated_role (replicate_new_or_updated_role ∅ [] ∅ [("1234567", ({"app1:hosts:read", "inventory:hosts:write"} : Finset String)), ("ws_2", ({"app1:hosts:read", "inventory:hosts:write"} : Finset String))] 0).1 (replicate_new_or_updated_role ∅ [] ∅ [("1234567", ({"app1:hosts:read", "inventory:hosts:write"} : Finset String)), ("ws_2", ({"app1:hosts:read", "inventory:hosts:write"} : Finset String))] 0).2.1 ∅ [("1234567", ({"app1:hosts:read", "inventory:hosts:write"} : Finset String)), ("ws_2", ({"app1:hosts:read", "inventory:hosts:write", "app2:hosts:read"} : Finset String))] (replicate_new_or_updated_role ∅ [] ∅ [("1234567", ({"app1:hosts:read", "inventory:hosts:write"} : Finset String)), ("ws_2", ({"app1:hosts:read", "inventory:hosts:write"} : Finset String))] 0).2.2).1 (replicate_new_or_updated_role (replicate_new_or_updated_role ∅ [] ∅ [("1234567", ({"app1:hosts:read", "inventory:hosts:write"} : Finset String)), ("ws_2", ({"app1:hosts:read", "inventory:hosts:write"} : Finset String))] 0).1 (replicate_new_or_updated_role ∅ [] ∅ [("1234567", ({"app1:hosts:read", "inventory:hosts:write"} : Finset String)), ("ws_2", ({"app1:hosts:read", "inventory:hosts:write"} : Finset String))] 0).2.1 ∅ [("1234567", ({"app1:hosts:read", "inventory:hosts:write"} : Finset String)), ("ws_2", ({"app1:hosts:read", "inventory:hosts:write", "app2:hosts:read"} : Finset String))] (replicate_new_or_updated_role ∅ [] ∅ [("1234567", ({"app1:hosts:read", "inventory:hosts:write"} : Finset String)), ("ws_2", ({"app1:hosts:read", "inventory:hosts:write"} : Finset String))] 0).2.2).2.1 ∅ [("1234567", ({"app1:hosts:read", "inventory:hosts:write"} : Finset String)), ("ws_2", ({"app1:hosts:read", "inventory:hosts:write"} : Finset String))] (replicate_new_or_updated_role (replicate_new_or_updated_role ∅ [] ∅ [("1234567", ({"app1:hosts:read", "inventory:hosts:write"} : Finset String)), ("ws_2", ({"app1:hosts:read", "inventory:hosts:write"} : Finset String))] 0).1 (replicate_new_or_updated_role ∅ [] ∅ [("1234567", ({"app1:hosts:read", "inventory:hosts:write"} : Finset String)), ("ws_2", ({"app1:hosts:read", "inventory:hosts:write"} : Finset String))] 0).2.1 ∅ [("1234567", ({"app1:hosts:read", "inventory:hosts:write"} : Finset String)), ("ws_2", ({"app1:hosts:read", "inventory:hosts:write", "app2:hosts:read"} : Finset String))] (replicate_new_or_updated_role ∅ [] ∅ [("1234567", ({"app1:hosts:read", "inventory:hosts:write"} : Finset String)), ("ws_2", ({"app1:hosts:read", "inventory:hosts:write"} : Finset String))] 0).2.2).2.2).1 rid = Finset.image (roleTuple rid) ({"app1:hosts:read", "inventory:hosts:write"} : Finset String) ∧
      wsBindings (replicate_new_or_updated_role (replicate_new_or_updated_role (replicate_new_or_updated_role ∅ [] ∅ [("1234567", ({"app1:hosts:read", "inventory:hosts:write"} : Finset String)), ("ws_2", ({"app1:hosts:read", "inventory:hosts:write"} : Finset String))] 0).1 (replicate_new_or_updated_role ∅ [] ∅ [("1234567", ({"app1:hosts:read", "inventory:hosts:write"} : Finset String)), ("ws_2", ({"app1:hosts:read", "inventory:hosts:write"} : Finset String))] 0).2.1 ∅ [("1234567", ({"app1:hosts:read", "inventory:hosts:write"} : Finset String)), ("ws_2", ({"app1:hosts:read", "inventory:hosts:write", "app2:hosts:read"} : Finset String))] (replicate_new_or_updated_role ∅ [] ∅ [("1234567", ({"app1:hosts:read", "inventory:hosts:write"} : Finset String)), ("ws_2", ({"app1:hosts:read", "inventory:hosts:write"} : Finset String))] 0).2.2).1 (replicate_new_or_updated_role (replicate_new_or_updated_role ∅ [] ∅ [("1234567", ({"app1:hosts:read", "inventory:hosts:write"} : Finset String)), ("ws_2", ({"app1:hosts:read", "inventory:hosts:write"} : Finset String))] 0).1 (replicate_new_or_updated_role ∅ [] ∅ [("1234567", ({"app1:hosts:read", "inventory:hosts:write"} : Finset String)), ("ws_2", ({"app1:hosts:read", "inventory:hosts:write"} : Finset String))] 0).2.1 ∅ [("1234567", ({"app1:hosts:read", "inventory:hosts:write"} : Finset String)), ("ws_2", ({"app1:hosts:read", "inventory:hosts:write", "app2:hosts:read"} : Finset String))] (replicate_new_or_updated_role ∅ [] ∅ [("1234567", ({"app1:hosts:read", "inventory:hosts:write"} : Finset String)), ("ws_2", ({"app1:hosts:read", "inventory:hosts:write"} : Finset String))] 0).2.2).2.1 ∅ [("1234567", ({"app1:hosts:read", "inventory:hosts:write"} : Finset String)), ("ws_2", ({"app1:hosts:read", "inventory:hosts:write"} : Finset String))] (replicate_new_or_updated_role (replicate_new_or_updated_role ∅ [] ∅ [("1234567", ({"app1:hosts:read", "inventory:hosts:write"} : Finset String)), ("ws_2", ({"app1:hosts:read", "inventory:hosts:write"} : Finset String))] 0).1 (replicate_new_or_updated_role ∅ [] ∅ [("1234567", ({"app1:hosts:read", "inventory:hosts:write"} : Finset String)), ("ws_2", ({"app1:hosts:read", "inventory:hosts:write"} : Finset String))] 0).2.1 ∅ [("1234567", ({"app1:hosts:read", "inventory:hosts:write"} : Finset String)), ("ws_2", ({"app1:hosts:read", "inventory:hosts:write", "app2:hosts:read"} : Finset String))] (replicate_new_or_updated_role ∅ [] ∅ [("1234567", ({"app1:hosts:read", "inventory:hosts:write"} : Finset String)), ("ws_2", ({"app1:hosts:read", "inventory:hosts:write"} : Finset String))] 0).2.2).2.2).1 "1234567" = {b1} ∧ wsBindings (replicate_new_or_updated_role (replicate_new_or_updated_role (replicate_new_or_updated_role ∅ [] ∅ [("1234567", ({"app1:hosts:read", "inventory:hosts:write"} : Finset String)), ("ws_2", ({"app1:hosts:read", "inventory:hosts:write"} : Finset String))] 0).1 (replicate_new_or_updated_role ∅ [] ∅ [("1234567", ({"app1:hosts:read", "inventory:hosts:write"} : Finset String)), ("ws_2", ({"app1:hosts:read", "inventory:hosts:write"} : Finset String))] 0).2.1 ∅ [("1234567", ({"app1:hosts:read", "inventory:hosts:write"} : Finset String)), ("ws_2", ({"app1:hosts:read", "inventory:hosts:write", "app2:hosts:read"} : Finset String))] (replicate_new_or_updated_role ∅ [] ∅ [("1234567", ({"app1:hosts:read", "inventory:hosts:write"} : Finset String)), ("ws_2", ({"app1:hosts:read", "inventory:hosts:write"} : Finset String))] 0).2.2).1 (replicate_new_or_updated_role (replicate_new_or_updated_role ∅ [] ∅ [("1234567", ({"app1:hosts:read", "inventory:hosts:write"} : Finset String)), ("ws_2", ({"app1:hosts:read", "inventory:hosts:write"} : Finset String))] 0).1 (replicate_new_or_updated_role ∅ [] ∅ [("1234567", ({"app1:hosts:read", "inventory:hosts:write"} : Finset String)), ("ws_2", ({"app1:hosts:read", "inventory:hosts:write"} : Finset String))] 0).2.1 ∅ [("1234567", ({"app1:hosts:read", "inventory:hosts:write"} : Finset String)), ("ws_2", ({"app1:hosts:read", "inventory:hosts:write", "app2:hosts:read"} : Finset String))] (replicate_new_or_updated_role ∅ [] ∅ [("1234567", ({"app1:hosts:read", "inventory:hosts:write"} : Finset String)), ("ws_2", ({"app1:hosts:read", "inventory:hosts:write"} : Finset String))] 0).2.2).2.1 ∅ [("1234567", ({"app1:hosts:read", "inventory:hosts:write"} : Finset String)), ("ws_2", ({"app1:hosts:read", "inventory:hosts:write"} : Finset String))] (replicate_new_or_updated_role (replicate_new_or_updated_role ∅ [] ∅ [("1234567", ({"app1:hosts:read", "inventory:hosts:write"} : Finset String)), ("ws_2", ({"app1:hosts:read", "inventory:hosts:write"} : Finset String))] 0).1 (replicate_new_or_updated_role ∅ [] ∅ [("1234567", ({"app1:hosts:read", "inventory:hosts:write"} : Finset String)), ("ws_2", ({"app1:hosts:read", "inventory:hosts:write"} : Finset String))] 0).2.1 ∅ [("1234567", ({"app1:hosts:read", "inventory:hosts:write"} : Finset String)), ("ws_2", ({"app1:hosts:read", "inventory:hosts:write", "app2:hosts:read"} : Finset String))] (replicate_new_or_updated_role ∅ [] ∅ [("1234567", ({"app1:hosts:read", "inventory:hosts:write"} : Finset String)), ("ws_2", ({"app1:hosts:read", "inventory:hosts:write"} : Finset String))] 0).2.2).2.2).1 "ws_2" = {b2} ∧
      grantedOf (replicate_new_or_updated_role (replicate_new_or_updated_role (replicate_new_or_updated_role ∅ [] ∅ [("1234567", ({"app1:hosts:read", "inventory:hosts:write"} : Finset String)), ("ws_2", ({"app1:hosts:read", "inventory:hosts:write"} : Finset String))] 0).1 (replicate_new_or_updated_role ∅ [] ∅ [("1234567", ({"app1:hosts:read", "inventory:hosts:write"} : Finset String)), ("ws_2", ({"app1:hosts:read", "inventory:hosts:write"} : Finset String))] 0).2.1 ∅ [("1234567", ({"app1:hosts:read", "inventory:hosts:write"} : Finset String)), ("ws_2", ({"app1:hosts:read", "inventory:hosts:write", "app2:hosts:read"} : Finset String))] (replicate_new_or_updated_role ∅ [] ∅ [("1234567", ({"app1:hosts:read", "inventory:hosts:write"} : Finset String)), ("ws_2", ({"app1:hosts:read", "inventory:hosts:write"} : Finset String))] 0).2.2).1 (replicate_new_or_updated_role (replicate_new_or_updated_role ∅ [] ∅ [("1234567", ({"app1:hosts:read", "inventory:hosts:write"} : Finset String)), ("ws_2", ({"app1:hosts:read", "inventory:hosts:write"} : Finset String))] 0).1 (replicate_new_or_updated_role ∅ [] ∅ [("1234567", ({"app1:hosts:read", "inventory:hosts:write"} : Finset String)), ("ws_2", ({"app1:hosts:read", "inventory:hosts:write"} : Finset String))] 0).2.1 ∅ [("1234567", ({"app1:hosts:read", "inventory:hosts:write"} : Finset String)), ("ws_2", ({"app1:hosts:read", "inventory:hosts:write", "app2:hosts:read"} : Finset String))] (replicate_new_or_updated_role ∅ [] ∅ [("1234567", ({"app1:hosts:read", "inventory:hosts:write"} : Finset String)), ("ws_2", ({"app1:hosts:read", "inventory:hosts:write"} : Finset String))] 0).2.2).2.1 ∅ [("1234567", ({"app1:hosts:read", "inventory:hosts:write"} : Finset String)), ("ws_2", ({"app1:hosts:read", "inventory:hosts:write"} : Finset String))] (replicate_new_or_updated_role (replicate_new_or_updated_role ∅ [] ∅ [("1234567", ({"app1:hosts:read", "inventory:hosts:write"} : Finset String)), ("ws_2", ({"app1:hosts:read", "inventory:hosts:write"} : Finset String))] 0).1 (replicate_new_or_updated_role ∅ [] ∅ [("1234567", ({"app1:hosts:read", "inventory:hosts:write"} : Finset String)), ("ws_2", ({"app1:hosts:read", "inventory:hosts:write"} : Finset String))] 0).2.1 ∅ [("1234567", ({"app1:hosts:read", "inventory:hosts:write"} : Finset String)), ("ws_2", ({"app1:hosts:read", "inventory:hosts:write", "app2:hosts:read"} : Finset String))] (replicate_new_or_updated_role ∅ [] ∅ [("1234567", ({"app1:hosts:read", "inventory:hosts:write"} : Finset String)), ("ws_2", ({"app1:hosts:read", "inventory:hosts:write"} : Finset String))] 0).2.2).2.2).1 b1 = {rid} ∧ grantedOf (replicate_new_or_updated_role (replicate_new_or_updated_role (replicate_new_or_updated_role ∅ [] ∅ [("1234567", ({"app1:hosts:read", "inventory:hosts:write"} : Finset String)), ("ws_2", ({"app1:hosts:read", "inventory:hosts:write"} : Finset String))] 0).1 (replicate_new_or_updated_role ∅ [] ∅ [("1234567", ({"app1:hosts:read", "inventory:hosts:write"} : Finset String)), ("ws_2", ({"app1:hosts:read", "inventory:hosts:write"} : Finset String))] 0).2.1 ∅ [("1234567", ({"app1:hosts:read", "inventory:hosts:write"} : Finset String)), ("ws_2", ({"app1:hosts:read", "inventory:hosts:write", "app2:hosts:read"} : Finset String))] (replicate_new_or_updated_role ∅ [] ∅ [("1234567", ({"app1:hosts:read", "inventory:hosts:write"} : Finset String)), ("ws_2", ({"app1:hosts:read", "inventory:hosts:write"} : Finset String))] 0).2.2).1 (replicate_new_or_updated_role (replicate_new_or_updated_role ∅ [] ∅ [("1234567", ({"app1:hosts:read", "inventory:hosts:write"} : Finset String)), ("ws_2", ({"app1:hosts:read", "inventory:hosts:write"} : Finset String))] 0).1 (replicate_new_or_updated_role ∅ [] ∅ [("1234567", ({"app1:hosts:read", "inventory:hosts:write"} : Finset String)), ("ws_2", ({"app1:hosts:read", "inventory:hosts:write"} : Finset String))] 0).2.1 ∅ [("1234567", ({"app1:hosts:read", "inventory:hosts:write"} : Finset String)), ("ws_2", ({"app1:hosts:read", "inventory:hosts:write", "app2:hosts:read"} : Finset String))] (replicate_new_or_updated_role ∅ [] ∅ [("1234567", ({"app1:hosts:read", "inventory:hosts:write"} : Finset String)), ("ws_2", ({"app1:hosts:read", "inventory:hosts:write"} : Finset String))] 0).2.2).2.1 ∅ [("1234567", ({"app1:hosts:read", "inventory:hosts:write"} : Finset String)), ("ws_2", ({"app1:hosts:read", "inventory:hosts:write"} : Finset String))] (replicate_new_or_updated_role (replicate_new_or_updated_role ∅ [] ∅ [("1234567", ({"app1:hosts:read", "inventory:hosts:write"} : Finset String)), ("ws_2", ({"app1:hosts:read", "inventory:hosts:write"} : Finset String))] 0).1 (replicate_new_or_updated_role ∅ [] ∅ [("1234567", ({"app1:hosts:read", "inventory:hosts:write"} : Finset String)), ("ws_2", ({"app1:hosts:read", "inventory:hosts:write"} : Finset String))] 0).2.1 ∅ [("1234567", ({"app1:hosts:read", "inventory:hosts:write"} : Finset String)), ("ws_2", ({"app1:hosts:read", "inventory:hosts:write", "app2:hosts:read"} : Finset String))] (replicate_new_or_updated_role ∅ [] ∅ [("1234567", ({"app1:hosts:read", "inventory:hosts:write"} : Finset String)), ("ws_2", ({"app1:hosts:read", "inventory:hosts:write"} : Finset String))] 0).2.2).2.2).1 b2 = {rid} ∧
      (∃ e2, findEntry "ws_2" (replicate_new_or_updated_role (replicate_new_or_updated_role ∅ [] ∅ [("1234567", ({"app1:hosts:read", "inventory:hosts:write"} : Finset String)), ("ws_2", ({"app1:hosts:read", "inventory:hosts:write"} : Finset String))] 0).1 (replicate_new_or_updated_role ∅ [] ∅ [("1234567", ({"app1:hosts:read", "inventory:hosts:write"} : Finset String)), ("ws_2", ({"app1:hosts:read", "inventory:hosts:write"} : Finset String))] 0).2.1 ∅ [("1234567", ({"app1:hosts:read", "inventory:hosts:write"} : Finset String)), ("ws_2", ({"app1:hosts:read", "inventory:hosts:write", "app2:hosts:read"} : Finset String))] (replicate_new_or_updated_role ∅ [] ∅ [("1234567", ({"app1:hosts:read", "inventory:hosts:write"} : Finset String)), ("ws_2", ({"app1:hosts:read", "inventory:hosts:write"} : Finset String))] 0).2.2).2.1 = some e2 ∧ e2.v2RoleId ≠ rid ∧
        roleTuples (replicate_new_or_updated_role (replicate_new_or_updated_role (replicate_new_or_updated_role ∅ [] ∅ [("1234567", ({"app1:hosts:read", "inventory:hosts:write"} : Finset String)), ("ws_2", ({"app1:hosts:read", "inventory:hosts:write"} : Finset String))] 0).1 (replicate_new_or_updated_role ∅ [] ∅ [("1234567", ({"app1:hosts:read", "inventory:hosts:write"} : Finset String)), ("ws_2", ({"app1:hosts:read", "inventory:hosts:write"} : Finset String))] 0).2.1 ∅ [("1234567", ({"app1:hosts:read", "inventory:hosts:write"} : Finset String)), ("ws_2", ({"app1:hosts:read", "inventory:hosts:write", "app2:hosts:read"} : Finset String))] (replicate_new_or_updated_role ∅ [] ∅ [("1234567", ({"app1:hosts:read", "inventory:hosts:write"} : Finset String)), ("ws_2", ({"app1:hosts:read", "inventory:hosts:write"} : Finset String))] 0).2.2).1 (replicate_new_or_updated_role (replicate_new_or_updated_role ∅ [] ∅ [("1234567", ({"app1:hosts:read", "inventory:hosts:write"} : Finset String)), ("ws_2", ({"app1:hosts:read", "inventory:hosts:write"} : Finset String))] 0).1 (replicate_new_or_updated_role ∅ [] ∅ [("1234567", ({"app1:hosts:read", "inventory:hosts:write"} : Finset String)), ("ws_2", ({"app1:hosts:read", "inventory:hosts:write"} : Finset String))] 0).2.1 ∅ [("1234567", ({"app1:hosts:read", "inventory:hosts:write"} : Finset String)), ("ws_2", ({"app1:hosts:read", "inventory:hosts:write", "app2:hosts:read"} : Finset String))] (replicate_new_or_updated_role ∅ [] ∅ [("1234567", ({"app1:hosts:read", "inventory:hosts:write"} : Finset String)), ("ws_2", ({"app1:hosts:read", "inventory:hosts:write"} : Finset String))] 0).2.2).2.1 ∅ [("1234567", ({"app1:hosts:read", "inventory:hosts:write"} : Finset String)), ("ws_2", ({"app1:hosts:read", "inventory:hosts:write"} : Finset String))] (replicate_new_or_updated_role (replicate_new_or_updated_role ∅ [] ∅ [("1234567", ({"app1:hosts:read", "inventory:hosts:write"} : Finset String)), ("ws_2", ({"app1:hosts:read", "inventory:hosts:write"} : Finset String))] 0).1 (replicate_new_or_updated_role ∅ [] ∅ [("1234567", ({"app1:hosts:read", "inventory:hosts:write"} : Finset String)), ("ws_2", ({"app1:hosts:read", "inventory:hosts:write"} : Finset String))] 0).2.1 ∅ [("1234567", ({"app1:hosts:read", "inventory:hosts:write"} : Finset String)), ("ws_2", ({"app1:hosts:read", "inventory:hosts:write", "app2:hosts:read"} : Finset String))] (replicate_new_or_updated_role ∅ [] ∅ [("1234567", ({"app1:hosts:read", "inventory:hosts:write"} : Finset String)), ("ws_2", ({"app1:hosts:read", "inventory:hosts:write"} : Finset String))] 0).2.2).2.2).1 e2.v2RoleId = ∅) ∧
      b2 ∉ storeBindingIds (replicate_new_or_updated_role ∅ [] ∅ [("1234567", ({"app1:hosts:read", "inventory:hosts:write"} : Finset String)), ("ws_2", ({"app1:hosts:read", "inventory:hosts:write"} : Finset String))] 0).1 :=
  c4_convergence_reuses_v2_role "1234567" "ws_2" ({"app1:hosts:read", "inventory:hosts:write"} : Finset String) ({"app1:hosts:read", "inventory:hosts:write", "app2:hosts:read"} : Finset String) ∅ ∅ ∅ 0
    _ _ _ _ _ _ (by decide) (by decide) (by decide) rfl rfl rfl rfl rfl rfl

/-- Claim C5: an update that drops a workspace scope entirely (default no
longer appears in the role's scope mapping) deletes exactly that
workspace's Role Binding — the diff writes nothing and deletes precisely
the dropped binding's tuples — creates no replacement binding for it, and
leaves the remaining binding, its bound groups, and the shared V2 Role
intact. -/
theorem c5_scope_removal_deletes_binding
    (w1 w2 : String) (P G G' : Finset String) (n : Nat)
    (s1 s2 : Finset RelationTuple) (m1 m2 : RoleMapping) (n1 : Nat)
    (hw : w1 ≠ w2)
    (hs1 : s1 = (replicate_new_or_updated_role ∅ [] G [(w1, P), (w2, P)] n).1)
    (hm1 : m1 = (replicate_new_or_updated_role ∅ [] G [(w1, P), (w2, P)] n).2.1)
    (hs2 : s2 = (replicate_new_or_updated_role s1 m1 G' [(w2, P)] n1).1)
    (hm2 : m2 = (replicate_new_or_updated_role s1 m1 G' [(w2, P)] n1).2.1) :
    ∃ e1 e2, findEntry w1 m1 = some e1 ∧ findEntry w2 m1 = some e2 ∧
      findEntry w2 m2 = some e2 ∧ findEntry w1 m2 = none ∧
      (roleDiff m1 m2).1 = ∅ ∧
      (roleDiff m1 m2).2 ⊆ entryTuples w1 e1 ∧
      (roleDiff m1 m2).2 ∩ entryTuples w2 e2 = ∅ ∧
      wsBindings s2 w1 = ∅ ∧
      storeBindingIds s2 = {e2.bindingId} ∧
      wsBindings s2 w2 = {e2.bindingId} ∧
      grantedOf s2 e2.bindingId = {e2.v2RoleId} ∧
      groupsOf s2 e2.bindingId = e2.groups ∧
      roleTuples s2 e2.v2RoleId = P.image (roleTuple e2.v2RoleId) := by
  have hm1' : m1 = [(w1, ⟨P, freshBindingId (n+1), freshRoleId n, G⟩),
      (w2, ⟨P, freshBindingId (n+2), freshRoleId n, G⟩)] := by
    rw [hm1, replicate_mapping, replicateRole_create_two]
  have hs1' : s1 = mappingTuples [(w1, ⟨P, freshBindingId (n+1), freshRoleId n, G⟩),
      (w2, ⟨P, freshBindingId (n+2), freshRoleId n, G⟩)] := by
    rw [hs1, replicate_from_empty, replicateRole_create_two]
  have hm2' : m2 = [(w2, ⟨P, freshBindingId (n+2), freshRoleId n, G⟩)] := by
    rw [hm2, replicate_mapping, hm1',
      replicateRole_drop_first w1 w2 (freshBindingId (n+1)) (freshBindingId (n+2))
        (freshRoleId n) (freshRoleId n) P P G G G' n1 hw]
  have hs2' : s2 = mappingTuples [(w2, ⟨P, freshBindingId (n+2), freshRoleId n, G⟩)] := by
    rw [hs2, replicate_step s1 m1 G' [(w2, P)] n1 (by rw [hs1', hm1']), hm1',
      replicateRole_drop_first w1 w2 (freshBindingId (n+1)) (freshBindingId (n+2))
        (freshRoleId n) (freshRoleId n) P P G G G' n1 hw]
  have hbne : freshBindingId (n+1) ≠ freshBindingId (n+2) :=
    freshBindingId_injective.ne (by omega)
  refine ⟨⟨P, freshBindingId (n+1), freshRoleId n, G⟩,
    ⟨P, freshBindingId (n+2), freshRoleId n, G⟩,
    ?_, ?_, ?_, ?_, ?_, ?_, ?_, ?_, ?_, ?_, ?_, ?_, ?_⟩
  · rw [hm1']
    simp [findEntry]
  · rw [hm1']
    simp [findEntry, hw]
  · rw [hm2']
    simp [findEntry]
  · rw [hm2']
    simp [findEntry, Ne.symm hw]
  · rw [hm1', hm2']
    simp only [roleDiff, Finset.sdiff_eq_empty_iff_subset, mappingTuples,
      Finset.union_empty]
    exact Finset.subset_union_right
  · rw [hm1', hm2']
    intro t ht
    simp only [roleDiff, mappingTuples, Finset.union_empty, Finset.mem_sdiff,
      Finset.mem_union] at ht
    tauto
  · exact (roleDiff_avoids_kept_entry m1 m2 w2
      ⟨P, freshBindingId (n+2), freshRoleId n, G⟩ (by rw [hm1']; simp)
      (by rw [hm2']; simp)).2
  · rw [hs2']
    simp [mappingTuples, wsBindings_union, wsBindings_empty,
      wsBindings_entryTuples_ne w2 ⟨P, freshBindingId (n+2), freshRoleId n, G⟩ w1
        (Ne.symm hw)]
  · rw [hs2']
    simp [mappingTuples, storeBindingIds_union, storeBindingIds_empty,
      storeBindingIds_entryTuples]
  · rw [hs2']
    simp [mappingTuples, wsBindings_union, wsBindings_empty,
      wsBindings_entryTuples_self w2 ⟨P, freshBindingId (n+2), freshRoleId n, G⟩]
  · rw [hs2']
    simp [mappingTuples, grantedOf_union, grantedOf_empty,
      grantedOf_entryTuples_self w2 ⟨P, freshBindingId (n+2), freshRoleId n, G⟩]
  · rw [hs2']
    simp [mappingTuples, groupsOf_union, groupsOf_empty,
      groupsOf_entryTuples_self w2 ⟨P, freshBindingId (n+2), freshRoleId n, G⟩]
  · rw [hs2']
    simp [mappingTuples, roleTuples_union, roleTuples_empty,
      roleTuples_entryTuples_self w2 ⟨P, freshBindingId (n+2), freshRoleId n, G⟩]

/-- Witness for C5 at the reference test's scenario: the default
workspace's attribute scope is dropped, leaving only `ws_2`. -/
theorem c5_scope_removal_deletes_binding_witness :
    ∃ e1 e2, findEntry "1234567" (replicate_new_or_updated_role ∅ [] ∅ [("1234567", ({"app1:hosts:read", "inventory:hosts:write"} : Finset String)), ("ws_2", ({"app1:hosts:read", "inventory:hosts:write"} : Finset String))] 0).2.1 = some e1 ∧
      findEntry "ws_2" (replicate_new_or_updated_role ∅ [] ∅ [("1234567", ({"app1:hosts:read", "inventory:hosts:write"} : Finset String)), ("ws_2", ({"app1:hosts:read", "inventory:hosts:write"} : Finset String))] 0).2.1 = some e2 ∧
      findEntry "ws_2" (replicate_new_or_updated_role (replicate_new_or_updated_role ∅ [] ∅ [("1234567", ({"app1:hosts:read", "inventory:hosts:write"} : Finset String)), ("ws_2", ({"app1:hosts:read", "inventory:hosts:write"} : Finset String))] 0).1 (replicate_new_or_updated_role ∅ [] ∅ [("1234567", ({"app1:hosts:read", "inventory:hosts:write"} : Finset String)), ("ws_2", ({"app1:hosts:read", "inventory:hosts:write"} : Finset String))] 0).2.1 ∅ [("ws_2", ({"app1:hosts:read", "inventory:hosts:write"} : Finset String))] (replicate_new_or_updated_role ∅ [] ∅ [("1234567", ({"app1:hosts:read", "inventory:hosts:write"} : Finset String)), ("ws_2", ({"app1:hosts:read", "inventory:hosts:write"} : Finset String))] 0).2.2).2.1 = some e2 ∧
      findEntry "1234567" (replicate_new_or_updated_role (replicate_new_or_updated_role ∅ [] ∅ [("1234567", ({"app1:hosts:read", "inventory:hosts:write"} : Finset String)), ("ws_2", ({"app1:hosts:read", "inventory:hosts:write"} : Finset String))] 0).1 (replicate_new_or_updated_role ∅ [] ∅ [("1234567", ({"app1:hosts:read", "inventory:hosts:write"} : Finset String)), ("ws_2", ({"app1:hosts:read", "inventory:hosts:write"} : Finset String))] 0).2.1 ∅ [("ws_2", ({"app1:hosts:read", "inventory:hosts:write"} : Finset String))] (replicate_new_or_updated_role ∅ [] ∅ [("1234567", ({"app1:hosts:read", "inventory:hosts:write"} : Finset String)), ("ws_2", ({"app1:hosts:read", "inventory:hosts:write"} : Finset String))] 0).2.2).2.1 = none ∧
      (roleDiff (replicate_new_or_updated_role ∅ [] ∅ [("1234567", ({"app1:hosts:read", "inventory:hosts:write"} : Finset String)), ("ws_2", ({"app1:hosts:read", "inventory:hosts:write"} : Finset String))] 0).2.1 (replicate_new_or_updated_role (replicate_new_or_updated_role ∅ [] ∅ [("1234567", ({"app1:hosts:read", "inventory:hosts:write"} : Finset String)), ("ws_2", ({"app1:hosts:read", "inventory:hosts:write"} : Finset String))] 0).1 (replicate_new_or_updated_role ∅ [] ∅ [("1234567", ({"app1:hosts:read", "inventory:hosts:write"} : Finset String)), ("ws_2", ({"app1:hosts:read", "inventory:hosts:write"} : Finset String))] 0).2.1 ∅ [("ws_2", ({"app1:hosts:read", "inventory:hosts:write"} : Finset String))] (replicate_new_or_updated_role ∅ [] ∅ [("1234567", ({"app1:hosts:read", "inventory:hosts:write"} : Finset String)), ("ws_2", ({"app1:hosts:read", "inventory:hosts:write"} : Finset String))] 0).2.2).2.1).1 = ∅ ∧
      (roleDiff (replicate_new_or_updated_role ∅ [] ∅ [("1234567", ({"app1:hosts:read", "inventory:hosts:write"} : Finset String)), ("ws_2", ({"app1:hosts:read", "inventory:hosts:write"} : Finset String))] 0).2.1 (replicate_new_or_updated_role (replicate_new_or_updated_role ∅ [] ∅ [("1234567", ({"app1:hosts:read", "inventory:hosts:write"} : Finset String)), ("ws_2", ({"app1:hosts:read", "inventory:hosts:write"} : Finset String))] 0).1 (replicate_new_or_updated_role ∅ [] ∅ [("1234567", ({"app1:hosts:read", "inventory:hosts:write"} : Finset String)), ("ws_2", ({"app1:hosts:read", "inventory:hosts:write"} : Finset String))] 0).2.1 ∅ [("ws_2", ({"app1:hosts:read", "inventory:hosts:write"} : Finset String))] (replicate_new_or_updated_role ∅ [] ∅ [("1234567", ({"app1:hosts:read", "inventory:hosts:write"} : Finset String)), ("ws_2", ({"app1:hosts:read", "inventory:hosts:write"} : Finset String))] 0).2.2).2.1).2 ⊆ entryTuples "1234567" e1 ∧
      (roleDiff (replicate_new_or_updated_role ∅ [] ∅ [("1234567", ({"app1:hosts:read", "inventory:hosts:write"} : Finset String)), ("ws_2", ({"app1:hosts:read", "inventory:hosts:write"} : Finset String))] 0).2.1 (replicate_new_or_updated_role (replicate_new_or_updated_role ∅ [] ∅ [("1234567", ({"app1:hosts:read", "inventory:hosts:write"} : Finset String)), ("ws_2", ({"app1:hosts:read", "inventory:hosts:write"} : Finset String))] 0).1 (replicate_new_or_updated_role ∅ [] ∅ [("1234567", ({"app1:hosts:read", "inventory:hosts:write"} : Finset String)), ("ws_2", ({"app1:hosts:read", "inventory:hosts:write"} : Finset String))] 0).2.1 ∅ [("ws_2", ({"app1:hosts:read", "inventory:hosts:write"} : Finset String))] (replicate_new_or_updated_role ∅ [] ∅ [("1234567", ({"app1:hosts:read", "inventory:hosts:write"} : Finset String)), ("ws_2", ({"app1:hosts:read", "inventory:hosts:write"} : Finset String))] 0).2.2).2.1).2 ∩ entryTuples "ws_2" e2 = ∅ ∧
      wsBindings (replicate_new_or_updated_role (replicate_new_or_updated_role ∅ [] ∅ [("1234567", ({"app1:hosts:read", "inventory:hosts:write"} : Finset String)), ("ws_2", ({"app1:hosts:read", "inventory:hosts:write"} : Finset String))] 0).1 (replicate_new_or_updated_role ∅ [] ∅ [("1234567", ({"app1:hosts:read", "inventory:hosts:write"} : Finset String)), ("ws_2", ({"app1:hosts:read", "inventory:hosts:write"} : Finset String))] 0).2.1 ∅ [("ws_2", ({"app1:hosts:read", "inventory:hosts:write"} : Finset String))] (replicate_new_or_updated_role ∅ [] ∅ [("1234567", ({"app1:hosts:read", "inventory:hosts:write"} : Finset String)), ("ws_2", ({"app1:hosts:read", "inventory:hosts:write"} : Finset String))] 0).2.2).1 "1234567" = ∅ ∧
      storeBindingIds (replicate_new_or_updated_role (replicate_new_or_updated_role ∅ [] ∅ [("1234567", ({"app1:hosts:read", "inventory:hosts:write"} : Finset String)), ("ws_2", ({"app1:hosts:read", "inventory:hosts:write"} : Finset String))] 0).1 (replicate_new_or_updated_role ∅ [] ∅ [("1234567", ({"app1:hosts:read", "inventory:hosts:write"} : Finset String)), ("ws_2", ({"app1:hosts:read", "inventory:hosts:write"} : Finset String))] 0).2.1 ∅ [("ws_2", ({"app1:hosts:read", "inventory:hosts:write"} : Finset String))] (replicate_new_or_updated_role ∅ [] ∅ [("1234567", ({"app1:hosts:read", "inventory:hosts:write"} : Finset String)), ("ws_2", ({"app1:hosts:read", "inventory:hosts:write"} : Finset String))] 0).2.2).1 = {e2.bindingId} ∧
      wsBindings (replicate_new_or_updated_role (replicate_new_or_updated_role ∅ [] ∅ [("1234567", ({"app1:hosts:read", "inventory:hosts:write"} : Finset String)), ("ws_2", ({"app1:hosts:read", "inventory:hosts:write"} : Finset String))] 0).1 (replicate_new_or_updated_role ∅ [] ∅ [("1234567", ({"app1:hosts:read", "inventory:hosts:write"} : Finset String)), ("ws_2", ({"app1:hosts:read", "inventory:hosts:write"} : Finset String))] 0).2.1 ∅ [("ws_2", ({"app1:hosts:read", "inventory:hosts:write"} : Finset String))] (replicate_new_or_updated_role ∅ [] ∅ [("1234567", ({"app1:hosts:read", "inventory:hosts:write"} : Finset String)), ("ws_2", ({"app1:hosts:read", "inventory:hosts:write"} : Finset String))] 0).2.2).1 "ws_2" = {e2.bindingId} ∧
      grantedOf (replicate_new_or_updated_role (replicate_new_or_updated_role ∅ [] ∅ [("1234567", ({"app1:hosts:read", "inventory:hosts:write"} : Finset String)), ("ws_2", ({"app1:hosts:read", "inventory:hosts:write"} : Finset String))] 0).1 (replicate_new_or_updated_role ∅ [] ∅ [("1234567", ({"app1:hosts:read", "inventory:hosts:write"} : Finset String)), ("ws_2", ({"app1:hosts:read", "inventory:hosts:write"} : Finset String))] 0).2.1 ∅ [("ws_2", ({"app1:hosts:read", "inventory:hosts:write"} : Finset String))] (replicate_new_or_updated_role ∅ [] ∅ [("1234567", ({"app1:hosts:read", "inventory:hosts:write"} : Finset String)), ("ws_2", ({"app1:hosts:read", "inventory:hosts:write"} : Finset String))] 0).2.2).1 e2.bindingId = {e2.v2RoleId} ∧
      groupsOf (replicate_new_or_updated_role (replicate_new_or_updated_role ∅ [] ∅ [("1234567", ({"app1:hosts:read", "inventory:hosts:write"} : Finset String)), ("ws_2", ({"app1:hosts:read", "inventory:hosts:write"} : Finset String))] 0).1 (replicate_new_or_updated_role ∅ [] ∅ [("1234567", ({"app1:hosts:read", "inventory:hosts:write"} : Finset String)), ("ws_2", ({"app1:hosts:read", "inventory:hosts:write"} : Finset String))] 0).2.1 ∅ [("ws_2", ({"app1:hosts:read", "inventory:hosts:write"} : Finset String))] (replicate_new_or_updated_role ∅ [] ∅ [("1234567", ({"app1:hosts:read", "inventory:hosts:write"} : Finset String)), ("ws_2", ({"app1:hosts:read", "inventory:hosts:write"} : Finset String))] 0).2.2).1 e2.bindingId = e2.groups ∧
      roleTuples (replicate_new_or_updated_role (replicate_new_or_updated_role ∅ [] ∅ [("1234567", ({"app1:hosts:read", "inventory:hosts:write"} : Finset String)), ("ws_2", ({"app1:hosts:read", "inventory:hosts:write"} : Finset String))] 0).1 (replicate_new_or_updated_role ∅ [] ∅ [("1234567", ({"app1:hosts:read", "inventory:hosts:write"} : Finset String)), ("ws_2", ({"app1:hosts:read", "inventory:hosts:write"} : Finset String))] 0).2.1 ∅ [("ws_2", ({"app1:hosts:read", "inventory:hosts:write"} : Finset String))] (replicate_new_or_updated_role ∅ [] ∅ [("1234567", ({"app1:hosts:read", "inventory:hosts:write"} : Finset String)), ("ws_2", ({"app1:hosts:read", "inventory:hosts:write"} : Finset String))] 0).2.2).1 e2.v2RoleId = Finset.image (roleTuple e2.v2RoleId) ({"app1:hosts:read", "inventory:hosts:write"} : Finset String) :=
  c5_scope_removal_deletes_binding "1234567" "ws_2" ({"app1:hosts:read", "inventory:hosts:write"} : Finset String) ∅ ∅ 0
    _ _ _ _ _ (by decide) rfl rfl rfl rfl

/-- Claim C6: for a role whose existing workspace scopes have groups bound
(via policy), a single `replicate_new_or_updated_role` call that adds a
new workspace scope produces a Role Binding for the new workspace carrying
the same set of bound groups as the existing bindings and granting the
same shared V2 Role — no separate group-binding replication event is
involved. -/
theorem c6_new_scope_reuses_existing_groups
    (w1 w2 w3 : String) (P G : Finset String) (n : Nat)
    (s1 s2 : Finset RelationTuple) (m1 : RoleMapping) (n1 : Nat)
    (hw12 : w1 ≠ w2) (hw13 : w1 ≠ w3) (hw23 : w2 ≠ w3) (hP : P.Nonempty)
    (hs1 : s1 = (replicate_new_or_updated_role ∅ [] G [(w1, P), (w2, P)] n).1)
    (hm1 : m1 = (replicate_new_or_updated_role ∅ [] G [(w1, P), (w2, P)] n).2.1)
    (hn1 : n1 = (replicate_new_or_updated_role ∅ [] G [(w1, P), (w2, P)] n).2.2)
    (hs2 : s2 = (replicate_new_or_updated_role s1 m1 G
      [(w1, P), (w2, P), (w3, P)] n1).1) :
    ∃ rid b1 b2 b3,
      findEntry w3 m1 = none ∧
      storeV2RoleIds s2 = {rid} ∧
      wsBindings s2 w1 = {b1} ∧ wsBindings s2 w2 = {b2} ∧ wsBindings s2 w3 = {b3} ∧
      grantedOf s2 b3 = {rid} ∧
      groupsOf s2 b1 = G ∧ groupsOf s2 b2 = G ∧ groupsOf s2 b3 = G ∧
      b3 ∉ storeBindingIds s1 := by
  have hm1' : m1 = [(w1, ⟨P, freshBindingId (n+1), freshRoleId n, G⟩),
      (w2, ⟨P, freshBindingId (n+2), freshRoleId n, G⟩)] := by
    rw [hm1, replicate_mapping, replicateRole_create_two]
  have hn1' : n1 = n + 3 := by
    rw [hn1, replicate_counter, replicateRole_create_two]
  have hs1' : s1 = mappingTuples [(w1, ⟨P, freshBindingId (n+1), freshRoleId n, G⟩),
      (w2, ⟨P, freshBindingId (n+2), freshRoleId n, G⟩)] := by
    rw [hs1, replicate_from_empty, replicateRole_create_two]
  have hs2' : s2 = mappingTuples [(w1, ⟨P, freshBindingId (n+1), freshRoleId n, G⟩),
      (w2, ⟨P, freshBindingId (n+2), freshRoleId n, G⟩),
      (w3, ⟨P, freshBindingId (n+3), freshRoleId n, G⟩)] := by
    rw [hs2, replicate_step s1 m1 G [(w1, P), (w2, P), (w3, P)] n1
        (by rw [hs1', hm1']), hm1', hn1',
      replicateRole_keep_keep_add w1 w2 w3 (freshBindingId (n+1)) (freshBindingId (n+2))
        (freshRoleId n) (freshRoleId n) P G G G (n+3) hw12 hw13 hw23]
  refine ⟨freshRoleId n, freshBindingId (n+1), freshBindingId (n+2), freshBindingId (n+3),
    ?_, ?_, ?_, ?_, ?_, ?_, ?_, ?_, ?_, ?_⟩
  · rw [hm1']
    simp [findEntry, hw13, hw23]
  · rw [hs2']
    simp [mappingTuples, storeV2RoleIds_union, storeV2RoleIds_empty,
      storeV2RoleIds_entryTuples w1 ⟨P, freshBindingId (n+1), freshRoleId n, G⟩ hP,
      storeV2RoleIds_entryTuples w2 ⟨P, freshBindingId (n+2), freshRoleId n, G⟩ hP,
      storeV2RoleIds_entryTuples w3 ⟨P, freshBindingId (n+3), freshRoleId n, G⟩ hP]
  · rw [hs2']
    simp [mappingTuples, wsBindings_union, wsBindings_empty,
      wsBindings_entryTuples_self w1 ⟨P, freshBindingId (n+1), freshRoleId n, G⟩,
      wsBindings_entryTuples_ne w2 ⟨P, freshBindingId (n+2), freshRoleId n, G⟩ w1
        (Ne.symm hw12),
      wsBindings_entryTuples_ne w3 ⟨P, freshBindingId (n+3), freshRoleId n, G⟩ w1
        (Ne.symm hw13)]
  · rw [hs2']
    simp [mappingTuples, wsBindings_union, wsBindings_empty,
      wsBindings_entryTuples_self w2 ⟨P, freshBindingId (n+2), freshRoleId n, G⟩,
      wsBindings_entryTuples_ne w1 ⟨P, freshBindingId (n+1), freshRoleId n, G⟩ w2 hw12,
      wsBindings_entryTuples_ne w3 ⟨P, freshBindingId (n+3), freshRoleId n, G⟩ w2
        (Ne.symm hw23)]
  · rw [hs2']
    simp [mappingTuples, wsBindings_union, wsBindings_empty,
      wsBindings_entryTuples_self w3 ⟨P, freshBindingId (n+3), freshRoleId n, G⟩,
      wsBindings_entryTuples_ne w1 ⟨P, freshBindingId (n+1), freshRoleId n, G⟩ w3 hw13,
      wsBindings_entryTuples_ne w2 ⟨P, freshBindingId (n+2), freshRoleId n, G⟩ w3 hw23]
  · rw [hs2']
    simp [mappingTuples, grantedOf_union, grantedOf_empty,
      grantedOf_entryTuples_self w3 ⟨P, freshBindingId (n+3), freshRoleId n, G⟩,
      grantedOf_entryTuples_ne w1 ⟨P, freshBindingId (n+1), freshRoleId n, G⟩
        (freshBindingId (n+3)) (freshBindingId_injective.ne (by omega)),
      grantedOf_entryTuples_ne w2 ⟨P, freshBindingId (n+2), freshRoleId n, G⟩
        (freshBindingId (n+3)) (freshBindingId_injective.ne (by omega))]
  · rw [hs2']
    simp [mappingTuples, groupsOf_union, groupsOf_empty,
      groupsOf_entryTuples_self w1 ⟨P, freshBindingId (n+1), freshRoleId n, G⟩,
      groupsOf_entryTuples_ne w2 ⟨P, freshBindingId (n+2), freshRoleId n, G⟩
        (freshBindingId (n+1)) (freshBindingId_injective.ne (by omega)),
      groupsOf_entryTuples_ne w3 ⟨P, freshBindingId (n+3), freshRoleId n, G⟩
        (freshBindingId (n+1)) (freshBindingId_injective.ne (by omega))]
  · rw [hs2']
    simp [mappingTuples, groupsOf_union, groupsOf_empty,
      groupsOf_entryTuples_self w2 ⟨P, freshBindingId (n+2), freshRoleId n, G⟩,
      groupsOf_entryTuples_ne w1 ⟨P, freshBindingId (n+1), freshRoleId n, G⟩
        (freshBindingId (n+2)) (freshBindingId_injective.ne (by omega)),
      groupsOf_entryTuples_ne w3 ⟨P, freshBindingId (n+3), freshRoleId n, G⟩
        (freshBindingId (n+2)) (freshBindingId_injective.ne (by omega))]
  · rw [hs2']
    simp [mappingTuples, groupsOf_union, groupsOf_empty,
      groupsOf_entryTuples_self w3 ⟨P, freshBindingId (n+3), freshRoleId n, G⟩,
      groupsOf_entryTuples_ne w1 ⟨P, freshBindingId (n+1), freshRoleId n, G⟩
        (freshBindingId (n+3)) (freshBindingId_injective.ne (by omega)),
      groupsOf_entryTuples_ne w2 ⟨P, freshBindingId (n+2), freshRoleId n, G⟩
        (freshBindingId (n+3)) (freshBindingId_injective.ne (by omega))]
  · rw [hs1']
    simp [mappingTuples, storeBindingIds_union, storeBindingIds_empty,
      storeBindingIds_entryTuples,
      freshBindingId_injective.ne (show n+3 ≠ n+1 by omega),
      freshBindingId_injective.ne (show n+3 ≠ n+2 by omega)]

/-- Witness for C6 at the reference test's scenario: groups `g1`, `g2`
are bound to the role and `ws_3` is added as a new scope. -/
theorem c6_new_scope_reuses_existing_groups_witness :
    ∃ rid b1 b2 b3,
      findEntry "ws_3" (replicate_new_or_updated_role ∅ [] ({"g1", "g2"} : Finset String) [("1234567", ({"app1:hosts:read", "inventory:hosts:write"} : Finset String)), ("ws_2", ({"app1:hosts:read", "inventory:hosts:write"} : Finset String))] 0).2.1 = none ∧
      storeV2RoleIds (replicate_new_or_updated_role (replicate_new_or_updated_role ∅ [] ({"g1", "g2"} : Finset String) [("1234567", ({"app1:hosts:read", "inventory:hosts:write"} : Finset String)), ("ws_2", ({"app1:hosts:read", "inventory:hosts:write"} : Finset String))] 0).1 (replicate_new_or_updated_role ∅ [] ({"g1", "g2"} : Finset String) [("1234567", ({"app1:hosts:read", "inventory:hosts:write"} : Finset String)), ("ws_2", ({"app1:hosts:read", "inventory:hosts:write"} : Finset String))] 0).2.1 ({"g1", "g2"} : Finset String) [("1234567", ({"app1:hosts:read", "inventory:hosts:write"} : Finset String)), ("ws_2", ({"app1:hosts:read", "inventory:hosts:write"} : Finset String)), ("ws_3", ({"app1:hosts:read", "inventory:hosts:write"} : Finset String))] (replicate_new_or_updated_role ∅ [] ({"g1", "g2"} : Finset String) [("1234567", ({"app1:hosts:read", "inventory:hosts:write"} : Finset String)), ("ws_2", ({"app1:hosts:read", "inventory:hosts:write"} : Finset String))] 0).2.2).1 = {rid} ∧
      wsBindings (replicate_new_or_updated_role (replicate_new_or_updated_role ∅ [] ({"g1", "g2"} : Finset String) [("1234567", ({"app1:hosts:read", "inventory:hosts:write"} : Finset String)), ("ws_2", ({"app1:hosts:read", "inventory:hosts:write"} : Finset String))] 0).1 (replicate_new_or_updated_role ∅ [] ({"g1", "g2"} : Finset String) [("1234567", ({"app1:hosts:read", "inventory:hosts:write"} : Finset String)), ("ws_2", ({"app1:hosts:read", "inventory:hosts:write"} : Finset String))] 0).2.1 ({"g1", "g2"} : Finset String) [("1234567", ({"app1:hosts:read", "inventory:hosts:write"} : Finset String)), ("ws_2", ({"app1:hosts:read", "inventory:hosts:write"} : Finset String)), ("ws_3", ({"app1:hosts:read", "inventory:hosts:write"} : Finset String))] (replicate_new_or_updated_role ∅ [] ({"g1", "g2"} : Finset String) [("1234567", ({"app1:hosts:read", "inventory:hosts:write"} : Finset String)), ("ws_2", ({"app1:hosts:read", "inventory:hosts:write"} : Finset String))] 0).2.2).1 "1234567" = {b1} ∧
      wsBindings (replicate_new_or_updated_role (replicate_new_or_updated_role ∅ [] ({"g1", "g2"} : Finset String) [("1234567", ({"app1:hosts:read", "inventory:hosts:write"} : Finset String)), ("ws_2", ({"app1:hosts:read", "inventory:hosts:write"} : Finset String))] 0).1 (replicate_new_or_updated_role ∅ [] ({"g1", "g2"} : Finset String) [("1234567", ({"app1:hosts:read", "inventory:hosts:write"} : Finset String)), ("ws_2", ({"app1:hosts:read", "inventory:hosts:write"} : Finset String))] 0).2.1 ({"g1", "g2"} : Finset String) [("1234567", ({"app1:hosts:read", "inventory:hosts:write"} : Finset String)), ("ws_2", ({"app1:hosts:read", "inventory:hosts:write"} : Finset String)), ("ws_3", ({"app1:hosts:read", "inventory:hosts:write"} : Finset String))] (replicate_new_or_updated_role ∅ [] ({"g1", "g2"} : Finset String) [("1234567", ({"app1:hosts:read", "inventory:hosts:write"} : Finset String)), ("ws_2", ({"app1:hosts:read", "inventory:hosts:write"} : Finset String))] 0).2.2).1 "ws_2" = {b2} ∧
      wsBindings (replicate_new_or_updated_role (replicate_new_or_updated_role ∅ [] ({"g1", "g2"} : Finset String) [("1234567", ({"app1:hosts:read", "inventory:hosts:write"} : Finset String)), ("ws_2", ({"app1:hosts:read", "inventory:hosts:write"} : Finset String))] 0).1 (replicate_new_or_updated_role ∅ [] ({"g1", "g2"} : Finset String) [("1234567", ({"app1:hosts:read", "inventory:hosts:write"} : Finset String)), ("ws_2", ({"app1:hosts:read", "inventory:hosts:write"} : Finset String))] 0).2.1 ({"g1", "g2"} : Finset String) [("1234567", ({"app1:hosts:read", "inventory:hosts:write"} : Finset String)), ("ws_2", ({"app1:hosts:read", "inventory:hosts:write"} : Finset String)), ("ws_3", ({"app1:hosts:read", "inventory:hosts:write"} : Finset String))] (replicate_new_or_updated_role ∅ [] ({"g1", "g2"} : Finset String) [("1234567", ({"app1:hosts:read", "inventory:hosts:write"} : Finset String)), ("ws_2", ({"app1:hosts:read", "inventory:hosts:write"} : Finset String))] 0).2.2).1 "ws_3" = {b3} ∧
      grantedOf (replicate_new_or_updated_role (replicate_new_or_updated_role ∅ [] ({"g1", "g2"} : Finset String) [("1234567", ({"app1:hosts:read", "inventory:hosts:write"} : Finset String)), ("ws_2", ({"app1:hosts:read", "inventory:hosts:write"} : Finset String))] 0).1 (replicate_new_or_updated_role ∅ [] ({"g1", "g2"} : Finset String) [("1234567", ({"app1:hosts:read", "inventory:hosts:write"} : Finset String)), ("ws_2", ({"app1:hosts:read", "inventory:hosts:write"} : Finset String))] 0).2.1 ({"g1", "g2"} : Finset String) [("1234567", ({"app1:hosts:read", "inventory:hosts:write"} : Finset String)), ("ws_2", ({"app1:hosts:read", "inventory:hosts:write"} : Finset String)), ("ws_3", ({"app1:hosts:read", "inventory:hosts:write"} : Finset String))] (replicate_new_or_updated_role ∅ [] ({"g1", "g2"} : Finset String) [("1234567", ({"app1:hosts:read", "inventory:hosts:write"} : Finset String)), ("ws_2", ({"app1:hosts:read", "inventory:hosts:write"} : Finset String))] 0).2.2).1 b3 = {rid} ∧
      groupsOf (replicate_new_or_updated_role (replicate_new_or_updated_role ∅ [] ({"g1", "g2"} : Finset String) [("1234567", ({"app1:hosts:read", "inventory:hosts:write"} : Finset String)), ("ws_2", ({"app1:hosts:read", "inventory:hosts:write"} : Finset String))] 0).1 (replicate_new_or_updated_role ∅ [] ({"g1", "g2"} : Finset String) [("1234567", ({"app1:hosts:read", "inventory:hosts:write"} : Finset String)), ("ws_2", ({"app1:hosts:read", "inventory:hosts:write"} : Finset String))] 0).2.1 ({"g1", "g2"} : Finset String) [("1234567", ({"app1:hosts:read", "inventory:hosts:write"} : Finset String)), ("ws_2", ({"app1:hosts:read", "inventory:hosts:write"} : Finset String)), ("ws_3", ({"app1:hosts:read", "inventory:hosts:write"} : Finset String))] (replicate_new_or_updated_role ∅ [] ({"g1", "g2"} : Finset String) [("1234567", ({"app1:hosts:read", "inventory:hosts:write"} : Finset String)), ("ws_2", ({"app1:hosts:read", "inventory:hosts:write"} : Finset String))] 0).2.2).1 b1 = ({"g1", "g2"} : Finset String) ∧
      groupsOf (replicate_new_or_updated_role (replicate_new_or_updated_role ∅ [] ({"g1", "g2"} : Finset String) [("1234567", ({"app1:hosts:read", "inventory:hosts:write"} : Finset String)), ("ws_2", ({"app1:hosts:read", "inventory:hosts:write"} : Finset String))] 0).1 (replicate_new_or_updated_role ∅ [] ({"g1", "g2"} : Finset String) [("1234567", ({"app1:hosts:read", "inventory:hosts:write"} : Finset String)), ("ws_2", ({"app1:hosts:read", "inventory:hosts:write"} : Finset String))] 0).2.1 ({"g1", "g2"} : Finset String) [("1234567", ({"app1:hosts:read", "inventory:hosts:write"} : Finset String)), ("ws_2", ({"app1:hosts:read", "inventory:hosts:write"} : Finset String)), ("ws_3", ({"app1:hosts:read", "inventory:hosts:write"} : Finset String))] (replicate_new_or_updated_role ∅ [] ({"g1", "g2"} : Finset String) [("1234567", ({"app1:hosts:read", "inventory:hosts:write"} : Finset String)), ("ws_2", ({"app1:hosts:read", "inventory:hosts:write"} : Finset String))] 0).2.2).1 b2 = ({"g1", "g2"} : Finset String) ∧
      groupsOf (replicate_new_or_updated_role (replicate_new_or_updated_role ∅ [] ({"g1", "g2"} : Finset String) [("1234567", ({"app1:hosts:read", "inventory:hosts:write"} : Finset String)), ("ws_2", ({"app1:hosts:read", "inventory:hosts:write"} : Finset String))] 0).1 (replicate_new_or_updated_role ∅ [] ({"g1", "g2"} : Finset String) [("1234567", ({"app1:hosts:read", "inventory:hosts:write"} : Finset String)), ("ws_2", ({"app1:hosts:read", "inventory:hosts:write"} : Finset String))] 0).2.1 ({"g1", "g2"} : Finset String) [("1234567", ({"app1:hosts:read", "inventory:hosts:write"} : Finset String)), ("ws_2", ({"app1:hosts:read", "inventory:hosts:write"} : Finset String)), ("ws_3", ({"app1:hosts:read", "inventory:hosts:write"} : Finset String))] (replicate_new_or_updated_role ∅ [] ({"g1", "g2"} : Finset String) [("1234567", ({"app1:hosts:read", "inventory:hosts:write"} : Finset String)), ("ws_2", ({"app1:hosts:read", "inventory:hosts:write"} : Finset String))] 0).2.2).1 b3 = ({"g1", "g2"} : Finset String) ∧
      b3 ∉ storeBindingIds (replicate_new_or_updated_role ∅ [] ({"g1", "g2"} : Finset String) [("1234567", ({"app1:hosts:read", "inventory:hosts:write"} : Finset String)), ("ws_2", ({"app1:hosts:read", "inventory:hosts:write"} : Finset String))] 0).1 :=
  c6_new_scope_reuses_existing_groups "1234567" "ws_2" "ws_3" ({"app1:hosts:read", "inventory:hosts:write"} : Finset String) ({"g1", "g2"} : Finset String) 0
    _ _ _ _ (by decide) (by decide) (by decide) (by decide) rfl rfl rfl rfl
